import Mathlib

/-!
OpenSovix: module subsystem, system-call table and message queues

A shallow embedding of `src/modules/module.c` (module registry, loader,
unloader, dispatcher, listing), of the system-call table and the module-call
system call of `src/kernel/syscall.c`, and of the queue table and the
send and receive operations of `ipc.c`.

Conventions of the embedding

* A C string is the list of its characters before the terminating NUL.
* A pointer is a natural number, `0` being `NULL`.
* The singly linked `module_list` is a Lean list, head first; every record
  carries its own address `self`, which stands for pointer identity.
* The collaborators whose code is not part of the sources (storage, the two
  allocators, the machine code of a module) are the fields of `Env`: one
  `Env` describes how they answer during one call.
* The code of a module (its hooks and slot functions) is a callable that
  returns a value; it does not reach back into the registry.
* Every call to a collaborator or to module code is appended to
  `Kernel.calls`, every `kprintf` format string to `Kernel.console`.
* `u32` arithmetic is taken modulo `U32`; addresses are not wrapped.
-/

namespace OpenSovix

/-! ## kernel.h -/

/-- C string: the characters that precede the terminating NUL. -/
abbrev CStr := List Char

/-- Number of values of a `u32`. -/
def U32 : Nat := 4294967296

/-- The `ErrorCode` enumeration of kernel.h, a C `int`. -/
abbrev ErrorCode := Int

abbrev ERR_SUCCESS : ErrorCode := 0
abbrev ERR_GENERIC : ErrorCode := -1
abbrev ERR_NO_MEMORY : ErrorCode := -2
abbrev ERR_INVALID_ARG : ErrorCode := -3
abbrev ERR_NOT_FOUND : ErrorCode := -4
abbrev ERR_EXISTS : ErrorCode := -5
abbrev ERR_PERMISSION : ErrorCode := -6
abbrev ERR_BUSY : ErrorCode := -7
abbrev ERR_TIMEOUT : ErrorCode := -8
abbrev ERR_NOT_IMPLEMENTED : ErrorCode := -9
abbrev ERR_MODULE_NOT_LOADED : ErrorCode := -10
abbrev ERR_INVALID_MODULE : ErrorCode := -11

/-- Conversion of an `ErrorCode` to the `u32` a system call returns. -/
def to_u32 (e : ErrorCode) : Nat := (e % 4294967296).toNat

abbrev MAX_MODULES : Nat := 64

/-- The `ModuleStatus` enumeration of kernel.h. -/
inductive ModuleStatus where
  | MODULE_STATUS_UNLOADED
  | MODULE_STATUS_LOADING
  | MODULE_STATUS_ACTIVE
  | MODULE_STATUS_SUSPENDED
  | MODULE_STATUS_ERROR
  deriving DecidableEq, Repr

open ModuleStatus

/-- The `ModuleType` enumeration of kernel.h; the field is read from module
memory, so it is kept as the integer it is. -/
abbrev ModuleType := Nat

abbrev MODULE_TYPE_CORE : ModuleType := 0
abbrev MODULE_TYPE_MEMORY : ModuleType := 1
abbrev MODULE_TYPE_FILESYSTEM : ModuleType := 2
abbrev MODULE_TYPE_DEVICE : ModuleType := 3
abbrev MODULE_TYPE_NETWORK : ModuleType := 4
abbrev MODULE_TYPE_SECURITY : ModuleType := 5
abbrev MODULE_TYPE_UTILITY : ModuleType := 6

/-- The `ModuleInfo` record of kernel.h. -/
structure ModuleInfo where
  name : CStr
  version : CStr
  author : CStr
  description : CStr
  type : ModuleType
  api_version : Nat
  flags : Nat
  deriving DecidableEq, Repr

/-! ## module.h -/

/-- The `ModuleHeader` record of module.h: eight `u32` fields. -/
structure ModuleHeader where
  magic : Nat
  version : Nat
  text_size : Nat
  data_size : Nat
  bss_size : Nat
  export_offset : Nat
  import_offset : Nat
  checksum : Nat
  deriving DecidableEq, Repr

abbrev MODULE_MAGIC : Nat := 0x4D4F4455

/-- Value of `sizeof(ModuleHeader)`. -/
abbrev SIZEOF_MODULE_HEADER : Nat := 32

/-- Value of `sizeof(ModuleEntry)` on the 32-bit target (it only appears as
the argument of `memory_alloc`). -/
abbrev SIZEOF_MODULE_ENTRY : Nat := 280

/-- The `ModuleExportTable` record of module.h as the dispatcher sees it: a
function pointer that is not `NULL` is the callable it points to. `init` is
called by the loader without a `NULL` test, so it is a callable. -/
structure ModuleExportTable where
  init : Nat → ErrorCode
  exit : Option (Unit → ErrorCode)
  query : Option (Unit → ErrorCode)
  functions : Fin 15 → Option (Nat → Nat)
  info : ModuleInfo
  private_data : Nat

/-! ## module.c: data -/

/-- The `ModuleEntry` record of module.c. `self` is the address of the record,
`exports` the address of its export table, `dependencies` the view of the
pointer array (index to pointer); the `next` link is the tail of the list. -/
structure ModuleEntry where
  self : Nat
  name : CStr
  base_address : Nat
  size : Nat
  status : ModuleStatus
  info : ModuleInfo
  exports : Nat
  dependencies : Nat → Nat
  dep_count : Nat

/-- One call made to a collaborator or to module code, with its result. -/
inductive Call where
  | filesystem_load_file (filename : CStr) (result : Nat) (file_size : Nat)
  | memory_alloc_module (size : Nat) (result : Nat)
  | memory_alloc (size : Nat) (result : Nat)
  | memory_free (ptr : Nat)
  | memory_free_module (ptr : Nat) (size : Nat)
  | init_hook (exports : Nat) (params : Nat) (result : ErrorCode)
  | exit_hook (exports : Nat) (result : ErrorCode)
  | module_function (exports : Nat) (index : Nat) (params : Nat) (result : Nat)
  deriving DecidableEq, Repr

/-- Answers of the collaborators during one call: storage (buffer pointer, or
`0`, and the bytes of the file), the module allocator and the kernel heap
(pointer or `0`), and the export table the machine finds at an address. -/
structure Env where
  filesystem_load_file : CStr → Nat × List Nat
  memory_alloc_module : Nat → Nat
  memory_alloc : Nat → Nat
  exports_at : Nat → ModuleExportTable

/-- The file-scope state of module.c (`module_list`, `module_count`,
`next_module_id`) together with byte memory, the record of collaborator
calls and the console. -/
structure Kernel where
  module_list : List ModuleEntry
  module_count : Nat
  next_module_id : Nat
  mem : Nat → Nat
  calls : List Call
  console : List String

/-- State of module.c before any call: the initialisers of its three
file-scope variables. -/
def Kernel.initial : Kernel :=
  { module_list := [], module_count := 0, next_module_id := 1,
    mem := fun _ => 0, calls := [], console := [] }

/-! ## Memory and collaborators -/

/-- The console collaborator: `kprintf` appends its format string. -/
def kprintf (s : Kernel) (fmt : String) : Kernel :=
  { s with console := s.console ++ [fmt] }

/-- Memory after storage has placed the bytes of a file at `ptr`. -/
def store_bytes (mem : Nat → Nat) (ptr : Nat) (bytes : List Nat) : Nat → Nat :=
  fun a => if ptr ≤ a ∧ a < ptr + bytes.length then bytes.getD (a - ptr) 0 else mem a

/-- Little-endian `u32` read at address `a`. -/
def read_u32 (mem : Nat → Nat) (a : Nat) : Nat :=
  mem a % 256 + 256 * (mem (a + 1) % 256) + 65536 * (mem (a + 2) % 256)
    + 16777216 * (mem (a + 3) % 256)

/-- The header fields as read through `(ModuleHeader*)module_data`. -/
def read_header (mem : Nat → Nat) (p : Nat) : ModuleHeader :=
  { magic := read_u32 mem p
    version := read_u32 mem (p + 4)
    text_size := read_u32 mem (p + 8)
    data_size := read_u32 mem (p + 12)
    bss_size := read_u32 mem (p + 16)
    export_offset := read_u32 mem (p + 20)
    import_offset := read_u32 mem (p + 24)
    checksum := read_u32 mem (p + 28) }

/-- Memory after `memcpy(dest, src, n)`. -/
def memcpy (mem : Nat → Nat) (dest src n : Nat) : Nat → Nat :=
  fun a => if dest ≤ a ∧ a < dest + n then mem (src + (a - dest)) else mem a

/-- Record one collaborator call. -/
def record (s : Kernel) (c : Call) : Kernel :=
  { s with calls := s.calls ++ [c] }

/-- The kernel-heap release `memory_free(ptr)`. -/
def memory_free (s : Kernel) (ptr : Nat) : Kernel :=
  record s (Call.memory_free ptr)

/-- The module-allocator release `memory_free_module(ptr, size)`. -/
def memory_free_module (s : Kernel) (ptr size : Nat) : Kernel :=
  record s (Call.memory_free_module ptr size)

/-! ## module.c: operations -/

/-- The lookup `module_find`: first record whose name compares equal. -/
def module_find : List ModuleEntry → CStr → Option ModuleEntry
  | [], _ => none
  | curr :: next, name =>
    if curr.name = name then some curr else module_find next name

/-- The check `module_check_dependencies`: some record other than `mod` holds
the address of `mod` among its first `dep_count` dependencies. -/
def module_check_dependencies : List ModuleEntry → ModuleEntry → Bool
  | [], _ => false
  | curr :: next, mod =>
    if curr.self = mod.self then module_check_dependencies next mod
    else if (List.range curr.dep_count).any (fun i => curr.dependencies i == mod.self) then true
    else module_check_dependencies next mod

/-- The loader `module_load(filename, out_info)`: the result, what is written
to `out_info` (nothing when `none`) and the state after the call. -/
def module_load (env : Env) (s : Kernel) (filename : CStr) :
    ErrorCode × Option ModuleInfo × Kernel :=
  let s := kprintf s "Loading module: %s\n"
  match module_find s.module_list filename with
  | some existing =>
    let s := kprintf s "  Module already loaded\n"
    (ERR_EXISTS, some existing.info, s)
  | none =>
    let module_data := (env.filesystem_load_file filename).1
    let file := (env.filesystem_load_file filename).2
    let s := record s (Call.filesystem_load_file filename module_data file.length)
    if module_data = 0 then
      let s := kprintf s "  ERROR: Failed to load module file\n"
      (ERR_NOT_FOUND, none, s)
    else
      let s := { s with mem := store_bytes s.mem module_data file }
      let header := read_header s.mem module_data
      if header.magic ≠ MODULE_MAGIC then
        let s := kprintf s "  ERROR: Invalid module magic\n"
        let s := memory_free s module_data
        (ERR_INVALID_MODULE, none, s)
      else
        let size := (header.text_size + header.data_size) % U32
        let module_base := env.memory_alloc_module size
        let s := record s (Call.memory_alloc_module size module_base)
        if module_base = 0 then
          let s := kprintf s "  ERROR: Failed to allocate module memory\n"
          let s := memory_free s module_data
          (ERR_NO_MEMORY, none, s)
        else
          let text_src := module_data + SIZEOF_MODULE_HEADER
          let s := { s with mem := memcpy s.mem module_base text_src header.text_size }
          let data_section := module_base + header.text_size
          let data_src := module_data + SIZEOF_MODULE_HEADER + header.text_size
          let s := { s with mem := memcpy s.mem data_section data_src header.data_size }
          let entry := env.memory_alloc SIZEOF_MODULE_ENTRY
          let s := record s (Call.memory_alloc SIZEOF_MODULE_ENTRY entry)
          if entry = 0 then
            let s := kprintf s "  ERROR: Failed to allocate module entry\n"
            let s := memory_free s module_base
            let s := memory_free s module_data
            (ERR_NO_MEMORY, none, s)
          else
            let exports := module_base + header.export_offset
            let table := env.exports_at exports
            let e : ModuleEntry :=
              { self := entry
                name := filename.take 31
                base_address := module_base
                size := size
                status := MODULE_STATUS_LOADING
                info := table.info
                exports := exports
                dependencies := fun _ => 0
                dep_count := 0 }
            let s := kprintf s "  Initializing module: %s\n"
            let init_result := table.init 0
            let s := record s (Call.init_hook exports 0 init_result)
            if init_result ≠ ERR_SUCCESS then
              let s := kprintf s "  ERROR: Module initialization failed: %d\n"
              let s := memory_free s module_base
              let s := memory_free s entry
              let s := memory_free s module_data
              (init_result, none, s)
            else
              let e := { e with status := MODULE_STATUS_ACTIVE }
              let s := { s with module_list := e :: s.module_list,
                                module_count := (s.module_count + 1) % U32 }
              let s := memory_free s module_data
              let s := kprintf s "  Module loaded successfully\n"
              (ERR_SUCCESS, some e.info, s)

/-- The list after `prev->next = curr->next` (or `module_list = curr->next`)
for the record the search loop of `module_unload` stopped at. -/
def unlink : List ModuleEntry → CStr → List ModuleEntry
  | [], _ => []
  | curr :: next, name =>
    if curr.name = name then next else curr :: unlink next name

/-- The unloader `module_unload(name)`. -/
def module_unload (env : Env) (s : Kernel) (name : CStr) : ErrorCode × Kernel :=
  let s := kprintf s "Unloading module: %s\n"
  match module_find s.module_list name with
  | none =>
    let s := kprintf s "  Module not found\n"
    (ERR_NOT_FOUND, s)
  | some curr =>
    if curr.info.type = MODULE_TYPE_CORE then
      let s := kprintf s "  ERROR: Cannot unload core module\n"
      (ERR_PERMISSION, s)
    else if module_check_dependencies s.module_list curr then
      let s := kprintf s "  ERROR: Module has dependent modules\n"
      (ERR_BUSY, s)
    else
      let s :=
        match (env.exports_at curr.exports).exit with
        | none => s
        | some f =>
          let exit_result := f ()
          let s := record s (Call.exit_hook curr.exports exit_result)
          if exit_result ≠ ERR_SUCCESS then
            kprintf s "  WARNING: Module exit returned error: %d\n"
          else s
      let s := { s with module_list := unlink s.module_list name }
      let s := memory_free_module s curr.base_address curr.size
      let s := memory_free s curr.self
      let s := { s with module_count := (s.module_count + U32 - 1) % U32 }
      let s := kprintf s "  Module unloaded successfully\n"
      (ERR_SUCCESS, s)

/-- The query `module_query(name, info)`: the result and what is written to
`info`; the state is not touched. -/
def module_query (s : Kernel) (name : CStr) : ErrorCode × Option ModuleInfo :=
  match module_find s.module_list name with
  | none => (ERR_NOT_FOUND, none)
  | some mod => (ERR_SUCCESS, some mod.info)

/-- The dispatcher `module_call(module_name, function_index, params)`: the
returned pointer (`0` is `NULL`) and the state after the call. -/
def module_call (env : Env) (s : Kernel) (module_name : CStr) (function_index : Nat)
    (params : Nat) : Nat × Kernel :=
  match module_find s.module_list module_name with
  | none => (0, kprintf s "Module not found: %s\n")
  | some mod =>
    if mod.status ≠ MODULE_STATUS_ACTIVE then
      (0, kprintf s "Module not active: %s\n")
    else if h : function_index ≥ 15 then
      (0, kprintf s "Invalid function index: %d\n")
    else
      match (env.exports_at mod.exports).functions ⟨function_index, by omega⟩ with
      | none => (0, kprintf s "Function not implemented: index %d\n")
      | some func =>
        let ret := func params
        (ret, record s (Call.module_function mod.exports function_index params ret))

/-! ## syscall.c: the module-call system call -/

/-- The handler `syscall_module_call`: the `u32` it returns, the pointer it
stores through `result`, and the state after the call. -/
def syscall_module_call (env : Env) (s : Kernel) (module_name : CStr)
    (function_index : Nat) (func_params : Nat) : Nat × Nat × Kernel :=
  let r := module_call env s module_name function_index func_params
  let ret := r.1
  (if ret ≠ 0 then to_u32 ERR_SUCCESS else to_u32 ERR_GENERIC, ret, r.2)

/-! ## Names for what one `module_load` call sees -/

/-- The buffer pointer storage returns for `filename`. -/
def load_buf (env : Env) (filename : CStr) : Nat := (env.filesystem_load_file filename).1

/-- The bytes of the file storage returns for `filename`. -/
def load_file (env : Env) (filename : CStr) : List Nat := (env.filesystem_load_file filename).2

/-- The image header as `module_load` reads it for `filename`. -/
def load_header (env : Env) (s : Kernel) (filename : CStr) : ModuleHeader :=
  read_header (store_bytes s.mem (load_buf env filename) (load_file env filename))
    (load_buf env filename)

/-- The region size `module_load` requests: the `u32` sum of the two sizes. -/
def load_size (env : Env) (s : Kernel) (filename : CStr) : Nat :=
  ((load_header env s filename).text_size + (load_header env s filename).data_size) % U32

/-- The region pointer the module allocator returns to `module_load`. -/
def load_base (env : Env) (s : Kernel) (filename : CStr) : Nat :=
  env.memory_alloc_module (load_size env s filename)

/-- The record pointer the kernel heap returns to `module_load`. -/
def load_entry (env : Env) : Nat := env.memory_alloc SIZEOF_MODULE_ENTRY

/-- The address at which `module_load` looks for the export table. -/
def load_exports (env : Env) (s : Kernel) (filename : CStr) : Nat :=
  load_base env s filename + (load_header env s filename).export_offset

/-- The result of the `init` hook `module_load` calls. -/
def load_init_result (env : Env) (s : Kernel) (filename : CStr) : ErrorCode :=
  (env.exports_at (load_exports env s filename)).init 0

/-- The record `module_load` links into the list on success. -/
def load_record (env : Env) (s : Kernel) (filename : CStr) : ModuleEntry :=
  { self := load_entry env
    name := filename.take 31
    base_address := load_base env s filename
    size := load_size env s filename
    status := MODULE_STATUS_ACTIVE
    info := (env.exports_at (load_exports env s filename)).info
    exports := load_exports env s filename
    dependencies := fun _ => 0
    dep_count := 0 }

/-- The calls `module_unload` makes to the `exit` hook of a record. -/
def exit_calls (env : Env) (curr : ModuleEntry) : List Call :=
  match (env.exports_at curr.exports).exit with
  | none => []
  | some f => [Call.exit_hook curr.exports (f ())]

/-! ## Allocator state -/

/-- Which allocator issued a block. -/
inductive Issuer where
  | kernel_heap
  | module_allocator
  deriving DecidableEq, Repr

/-- Modelled from the spec: the allocators (memory.h) are not among the
sources. Their state is taken to be the blocks handed out and not yet given
back; one step of it. The buffer of `filesystem_load_file` is a kernel-heap
block (the code releases it with `memory_free`); a block is given back only
through the release function of the allocator that issued it. -/
def live_step (live : List (Issuer × Nat)) : Call → List (Issuer × Nat)
  | Call.filesystem_load_file _ p _ => if p = 0 then live else (Issuer.kernel_heap, p) :: live
  | Call.memory_alloc _ p => if p = 0 then live else (Issuer.kernel_heap, p) :: live
  | Call.memory_alloc_module _ p => if p = 0 then live else (Issuer.module_allocator, p) :: live
  | Call.memory_free p => live.erase (Issuer.kernel_heap, p)
  | Call.memory_free_module p _ => live.erase (Issuer.module_allocator, p)
  | _ => live

/-- Modelled from the spec: the allocator state after a sequence of calls,
that is the blocks still handed out (memory.h is not among the sources). -/
def live_blocks (calls : List Call) : List (Issuer × Nat) :=
  calls.foldl live_step []

/-! ## Reachable states, recorded calls, region contents -/

/-- The registry states the kernel can be in: the initial one and every state
that follows a reachable one by a `module_load` or a `module_unload` call,
whatever the collaborators answer. -/
inductive Reachable : Kernel → Prop where
  | initial : Reachable Kernel.initial
  | load (env : Env) (s : Kernel) (filename : CStr) :
      Reachable s → Reachable (module_load env s filename).2.2
  | unload (env : Env) (s : Kernel) (name : CStr) :
      Reachable s → Reachable (module_unload env s name).2

/-- The calls a state has recorded after the first `n`. -/
def calls_since (s : Kernel) (n : Nat) : List Call := s.calls.drop n

/-- The `n` bytes of memory that start at `base`. -/
def region_bytes (mem : Nat → Nat) (base n : Nat) : List Nat :=
  (List.range n).map (fun i => mem (base + i))

/-- The text segment of an image: `text_size` bytes from offset 32. -/
def image_text (file : List Nat) (text_size : Nat) : List Nat :=
  (file.drop SIZEOF_MODULE_HEADER).take text_size

/-- The data segment of an image: `data_size` bytes from offset
`32 + text_size`. -/
def image_data (file : List Nat) (text_size data_size : Nat) : List Nat :=
  (file.drop (SIZEOF_MODULE_HEADER + text_size)).take data_size

/-- Memory after the two copies of `module_load`. -/
def load_mem (env : Env) (s : Kernel) (filename : CStr) : Nat → Nat :=
  memcpy
    (memcpy (store_bytes s.mem (load_buf env filename) (load_file env filename))
      (load_base env s filename) (load_buf env filename + SIZEOF_MODULE_HEADER)
      (load_header env s filename).text_size)
    (load_base env s filename + (load_header env s filename).text_size)
    (load_buf env filename + SIZEOF_MODULE_HEADER + (load_header env s filename).text_size)
    (load_header env s filename).data_size

/-! ## Concrete inputs -/

/-- A 40-byte image: correct magic, version 1, `text_size = 4`, `data_size = 4`,
`export_offset = 0`, followed by four text and four data bytes. -/
def demo_image : List Nat :=
  [0x55, 0x44, 0x4F, 0x4D,  1, 0, 0, 0,  4, 0, 0, 0,  4, 0, 0, 0,
   0, 0, 0, 0,  0, 0, 0, 0,  0, 0, 0, 0,  0, 0, 0, 0,
   0x90, 0x90, 0x90, 0xC3,  1, 2, 3, 4]

/-- The same image with the first byte of the magic changed. -/
def bad_magic_image : List Nat := 0x54 :: demo_image.tail

/-- Metadata of the demonstration module, of kind `kind`. -/
def demo_info (kind : ModuleType) : ModuleInfo :=
  { name := "demo".toList, version := "1.0".toList, author := "".toList,
    description := "".toList, type := kind, api_version := 1, flags := 0 }

/-- An export table of kind `kind` whose `init` returns `init_result`, with no
`exit` hook and one populated slot, slot 0, which returns its argument plus
one. -/
def demo_table (kind : ModuleType) (init_result : ErrorCode) : ModuleExportTable :=
  { init := fun _ => init_result
    exit := none
    query := none
    functions := fun i => if i.val = 0 then some (fun p => p + 1) else none
    info := demo_info kind
    private_data := 0 }

/-- Collaborators that serve `image` for every name at buffer address `buf`,
grant the region at `region` and the record at `rec`, and find `table` at
every address. -/
def demo_env (image : List Nat) (buf region rec : Nat) (table : ModuleExportTable) : Env :=
  { filesystem_load_file := fun _ => (buf, image)
    memory_alloc_module := fun _ => region
    memory_alloc := fun _ => rec
    exports_at := fun _ => table }

/-- Collaborators of a first load of a utility module. -/
def env_a : Env := demo_env demo_image 4096 8192 12288 (demo_table MODULE_TYPE_UTILITY ERR_SUCCESS)

/-- Collaborators of a later load: the region and the record are new blocks. -/
def env_b : Env := demo_env demo_image 4096 8448 12544 (demo_table MODULE_TYPE_UTILITY ERR_SUCCESS)

/-- Collaborators of a load whose image has a wrong magic. -/
def env_bad_magic : Env :=
  demo_env bad_magic_image 4096 8448 12544 (demo_table MODULE_TYPE_UTILITY ERR_SUCCESS)

/-- Collaborators of a load whose `init` hook returns `ERR_BUSY`. -/
def env_init_busy : Env :=
  demo_env demo_image 4096 8448 12544 (demo_table MODULE_TYPE_UTILITY ERR_BUSY)

/-- A file name of 32 characters. -/
def long_name : CStr := List.replicate 32 'a'

/-- A file name of 4 characters. -/
def short_name : CStr := "demo".toList

/-- The registry after two successful loads of `long_name`. -/
def twice_loaded : Kernel :=
  (module_load env_b (module_load env_a Kernel.initial long_name).2.2 long_name).2.2

/-- A registry holding the given records, with a matching count. -/
def registry_of (l : List ModuleEntry) : Kernel :=
  { Kernel.initial with module_list := l, module_count := l.length }

/-- An active record named `name` of kind `kind` at address `self`, whose
first `dep_count` dependencies all point to `dep`. -/
def demo_entry (self : Nat) (name : CStr) (kind : ModuleType) (status : ModuleStatus)
    (dep dep_count : Nat) : ModuleEntry :=
  { self := self
    name := name
    base_address := self + 4096
    size := 8
    status := status
    info := demo_info kind
    exports := self + 4096
    dependencies := fun _ => dep
    dep_count := dep_count }

/-- A core module at address 12288. -/
def core_entry : ModuleEntry :=
  demo_entry 12288 "core".toList MODULE_TYPE_CORE MODULE_STATUS_ACTIVE 0 0

/-- A utility module at address 12544. -/
def util_entry : ModuleEntry :=
  demo_entry 12544 "util".toList MODULE_TYPE_UTILITY MODULE_STATUS_ACTIVE 0 0

/-- A suspended utility module at address 13056. -/
def suspended_entry : ModuleEntry :=
  demo_entry 13056 "idle".toList MODULE_TYPE_UTILITY MODULE_STATUS_SUSPENDED 0 0

/-- A module at address 12800 with one dependency, the record at `target`. -/
def user_entry (target : Nat) : ModuleEntry :=
  demo_entry 12800 "user".toList MODULE_TYPE_UTILITY MODULE_STATUS_ACTIVE target 1

/-- The four bytes of a little-endian `u32`. -/
def le32 (n : Nat) : List Nat :=
  [n % 256, n / 256 % 256, n / 65536 % 256, n / 16777216 % 256]

/-- An image file: a header with correct magic, version 1 and the given
`text_size`, `data_size` and `export_offset`, followed by `payload`. -/
def make_image (text_size data_size export_offset : Nat) (payload : List Nat) : List Nat :=
  le32 MODULE_MAGIC ++ le32 1 ++ le32 text_size ++ le32 data_size ++ le32 0
    ++ le32 export_offset ++ le32 0 ++ le32 0 ++ payload

/-- An image whose `export_offset`, 1000, is far outside its 8-byte region. -/
def oob_export_image : List Nat := make_image 4 4 1000 [0x90, 0x90, 0x90, 0xC3, 1, 2, 3, 4]

/-- Collaborators that serve `oob_export_image`. -/
def env_oob_export : Env :=
  demo_env oob_export_image 4096 8192 12288 (demo_table MODULE_TYPE_UTILITY ERR_SUCCESS)

/-- A file of 32 bytes: only a header, which announces 100 bytes of text and
50 bytes of data. -/
def header_only_image : List Nat := make_image 100 50 0 []

/-- Collaborators that serve `header_only_image`. -/
def env_header_only : Env :=
  demo_env header_only_image 4096 8192 12288 (demo_table MODULE_TYPE_UTILITY ERR_SUCCESS)

/-- The image of the scenario: `text_size = 100`, `data_size = 50`,
`export_offset = 150`, and 150 bytes of payload. -/
def scenario_image : List Nat := make_image 100 50 150 (List.replicate 150 0x90)

/-- Collaborators of the scenario: the `init` hook succeeds and the module is
of kind Core. -/
def env_scenario : Env :=
  demo_env scenario_image 4096 8192 12288 (demo_table MODULE_TYPE_CORE ERR_SUCCESS)

/-- The name of the scenario. -/
def core_memory : CStr := "core_memory".toList

/-- Collaborators of a load whose record allocation fails. -/
def env_no_record : Env :=
  demo_env demo_image 4096 8448 0 (demo_table MODULE_TYPE_UTILITY ERR_SUCCESS)

/-- Collaborators of a load for which storage has no file. -/
def env_no_file : Env :=
  demo_env [] 0 8448 12544 (demo_table MODULE_TYPE_UTILITY ERR_SUCCESS)

/-- Collaborators of a load whose region allocation fails. -/
def env_no_region : Env :=
  demo_env demo_image 4096 0 12544 (demo_table MODULE_TYPE_UTILITY ERR_SUCCESS)

/-- An export table with an `exit` hook that returns `exit_result`. -/
def demo_table_exit (exit_result : ErrorCode) : ModuleExportTable :=
  { demo_table MODULE_TYPE_UTILITY ERR_SUCCESS with exit := some (fun _ => exit_result) }

/-- Collaborators of an unload whose `exit` hook returns `ERR_GENERIC`. -/
def env_exit_fails : Env := demo_env demo_image 4096 8192 12288 (demo_table_exit ERR_GENERIC)

/-- The name of the `i`-th module of a long run of loads: `m` and two digits. -/
def nth_name (i : Nat) : CStr := ['m', Char.ofNat (48 + i / 10 % 10), Char.ofNat (48 + i % 10)]

/-- Collaborators of the `i`-th load of the run: a region and a record of
its own. -/
def nth_env (i : Nat) : Env :=
  demo_env demo_image 4096 (65536 + 256 * i) (1048576 + 512 * i)
    (demo_table MODULE_TYPE_UTILITY ERR_SUCCESS)

/-- The registry after the first `n` loads of the run, from the initial state. -/
def load_run : Nat → Kernel
  | 0 => Kernel.initial
  | n + 1 => (module_load (nth_env n) (load_run n) (nth_name n)).2.2

/-! ## module.c: listing and health check -/

/-- The function `module_type_to_string`. -/
def module_type_to_string (type : ModuleType) : String :=
  if type = MODULE_TYPE_CORE then "CORE"
  else if type = MODULE_TYPE_MEMORY then "MEMORY"
  else if type = MODULE_TYPE_FILESYSTEM then "FS"
  else if type = MODULE_TYPE_DEVICE then "DEVICE"
  else if type = MODULE_TYPE_NETWORK then "NETWORK"
  else if type = MODULE_TYPE_SECURITY then "SECURITY"
  else if type = MODULE_TYPE_UTILITY then "UTILITY"
  else "UNKNOWN"

/-- The arguments of one row `module_list_all` prints: name, kind, version
and the status tag. -/
def list_row (curr : ModuleEntry) : CStr × String × CStr × String :=
  (curr.info.name, module_type_to_string curr.info.type, curr.info.version,
    if curr.status = MODULE_STATUS_ACTIVE then "[ACTIVE]" else "[INACTIVE]")

/-- The loop of `module_list_all` from the record `curr` on: the rows printed,
in the order of the visit. -/
def list_rows : List ModuleEntry → List (CStr × String × CStr × String)
  | [] => []
  | curr :: next => list_row curr :: list_rows next

/-- The loop of `module_list_all` on the console: one format string a record. -/
def list_console : List ModuleEntry → Kernel → Kernel
  | [], s => s
  | _ :: next, s => list_console next (kprintf s "%-20s %-10s v%-8s %s\n")

/-- The listing `module_list_all`: the count printed in the heading, the rows
in the order they are printed, and the state after the call. -/
def module_list_all (s : Kernel) : Nat × List (CStr × String × CStr × String) × Kernel :=
  let s1 := kprintf s "\n=== Loaded Modules (%d) ===\n"
  (s.module_count, list_rows s.module_list, list_console s.module_list s1)

/-- The loop of `module_check_health`: it visits every record and does
nothing. -/
def health_loop : List ModuleEntry → Kernel → Kernel
  | [], s => s
  | _ :: next, s => health_loop next s

/-- The function `module_check_health`. -/
def module_check_health (s : Kernel) : Kernel := health_loop s.module_list s

/-! ## Dependency edges and load times -/

/-- Every dependency edge of every record of the list names a record of the
list: the pointer is the address of some record. -/
def edges_closed (l : List ModuleEntry) : Prop :=
  ∀ d ∈ l, ∀ i, i < d.dep_count → ∃ e ∈ l, e.self = d.dependencies i

/-- One call of the registry interface. -/
inductive Op where
  | load (env : Env) (filename : CStr)
  | unload (env : Env) (name : CStr)

/-- The list of (load time, record) pairs after unlinking the first record
of the given name. -/
def unlink_tagged : List (Nat × ModuleEntry) → CStr → List (Nat × ModuleEntry)
  | [], _ => []
  | p :: rest, name => if p.2.name = name then rest else p :: unlink_tagged rest name

/-- One call at time `k`, on the state together with a ledger that pairs every
registered record with the time of the load that created it. -/
def step_tagged (k : Nat) (st : Kernel × List (Nat × ModuleEntry)) :
    Op → Kernel × List (Nat × ModuleEntry)
  | Op.load env filename =>
    ((module_load env st.1 filename).2.2,
      if (module_load env st.1 filename).1 = ERR_SUCCESS then
        (k, load_record env st.1 filename) :: st.2
      else st.2)
  | Op.unload env name =>
    ((module_unload env st.1 name).2,
      if (module_unload env st.1 name).1 = ERR_SUCCESS then unlink_tagged st.2 name
      else st.2)

/-- A sequence of calls, the first one at time `k`. -/
def run_tagged (k : Nat) (st : Kernel × List (Nat × ModuleEntry)) :
    List Op → Kernel × List (Nat × ModuleEntry)
  | [] => st
  | op :: ops => run_tagged (k + 1) (step_tagged k st op) ops

/-- The ledger of load times follows the registry: its records are the
registered records in list order, its times decrease strictly along the list
and are earlier than the time `k` of the next call. -/
def ledger_ok (k : Nat) (st : Kernel × List (Nat × ModuleEntry)) : Prop :=
  st.2.map (fun p => p.2) = st.1.module_list
  ∧ (st.2.map (fun p => p.1)).Pairwise (fun a b => b < a)
  ∧ ∀ p ∈ st.2, p.1 < k

/-- Metadata of the `i`-th module of a listing: its own name and version and
the kind `i % 7`. -/
def listing_info (i : Nat) : ModuleInfo :=
  { name := nth_name i, version := ['1', '.', Char.ofNat (48 + i % 10)], author := [],
    description := [], type := i % 7, api_version := 1, flags := 0 }

/-- Collaborators of the `i`-th load of a listing: a region and a record of its
own and an export table that carries `listing_info i`. -/
def listing_env (i : Nat) : Env :=
  demo_env demo_image 4096 (65536 + 256 * i) (1048576 + 512 * i)
    { demo_table MODULE_TYPE_UTILITY ERR_SUCCESS with info := listing_info i }

/-- Three loads of modules with different metadata and the unload of the
second one, from the initial state. -/
def listing_ops : List Op :=
  [Op.load (listing_env 0) (nth_name 0), Op.load (listing_env 1) (nth_name 1),
   Op.load (listing_env 2) (nth_name 2), Op.unload env_a (nth_name 1)]

/-! ## syscall.c: the table -/

/-- Value of `SYS_MAX`, the last enumerator of `SyscallNumber` in kernel.h. -/
abbrev SYS_MAX : Nat := 26

/-- The `SyscallParams` record of kernel.h: seven `u32` fields. -/
structure SyscallParams where
  syscall_num : Nat
  arg1 : Nat
  arg2 : Nat
  arg3 : Nat
  arg4 : Nat
  arg5 : Nat
  result : Nat
  deriving DecidableEq, Repr

/-- A system-call handler as syscall.c defines and calls them: from the
parameter block to the `u32` it returns. -/
abbrev SyscallHandler := SyscallParams → Nat

/-- The array `syscall_table`: index to entry, `none` being `NULL`. -/
abbrev SyscallTable := Nat → Option SyscallHandler

/-- The function `syscall_register`: the result and the table after the
call. -/
def syscall_register (table : SyscallTable) (num : Nat) (handler : Option SyscallHandler) :
    ErrorCode × SyscallTable :=
  if num ≥ SYS_MAX then (ERR_INVALID_ARG, table)
  else (ERR_SUCCESS, fun i => if i = num then handler else table i)

/-- The function `syscall_handler`: the parameter block after the call
(`none` for a `NULL` pointer) and the handler call made, if any, as the index
called and the block passed. -/
def syscall_handler (table : SyscallTable) (params : Option SyscallParams) :
    Option SyscallParams × Option (Nat × SyscallParams) :=
  match params with
  | none => (none, none)
  | some p =>
    let num := p.syscall_num
    if num ≥ SYS_MAX then (some { p with result := to_u32 ERR_NOT_IMPLEMENTED }, none)
    else
      match table num with
      | none => (some { p with result := to_u32 ERR_NOT_IMPLEMENTED }, none)
      | some handler => (some { p with result := handler p }, some (num, p))

/-! ## ipc.c -/

abbrev MAX_IPC_QUEUES : Nat := 128

abbrev ERR_IPC_QUEUE_FULL : ErrorCode := -14

/-- The `IPCMessage` record of kernel.h; `data` is a pointer. -/
structure IPCMessage where
  id : Nat
  type : Nat
  sender_pid : Nat
  receiver_pid : Nat
  size : Nat
  data : Nat
  flags : Nat
  timestamp : Nat
  next : Nat
  deriving DecidableEq, Repr

/-- A message slot after `memset(msg, 0, sizeof(IPCMessage))`. -/
def IPCMessage.zero : IPCMessage :=
  { id := 0, type := 0, sender_pid := 0, receiver_pid := 0, size := 0, data := 0,
    flags := 0, timestamp := 0, next := 0 }

/-- Modelled from the spec: the record `IPCQueue` of ipc.h, a header that is
not among the sources and that the spec does not describe; its fields are
those ipc.c reads and writes. `self` is the address of the record,
`messages_ptr` the pointer `messages` and `messages` the array it points to. -/
structure IPCQueue where
  self : Nat
  id : Nat
  name : CStr
  max_messages : Nat
  message_size : Nat
  messages_ptr : Nat
  messages : List IPCMessage
  count : Nat
  head : Nat
  tail : Nat
  deriving DecidableEq, Repr

/-- Answers of the collaborators of ipc.c during one call, and the constants
of ipc.h it uses: the two answers of `memory_alloc` in `ipc_queue_create`, the
pid of `process_get_current()` (`none` for `NULL`), `system_ticks`,
`sizeof(IPCQueue)`, `sizeof(IPCMessage)`, the size of the `name` array and
`MAX_MESSAGE_SIZE`. -/
structure IpcEnv where
  queue_alloc : Nat
  messages_alloc : Nat
  current_pid : Option Nat
  system_ticks : Nat
  sizeof_queue : Nat
  sizeof_message : Nat
  sizeof_name : Nat
  max_message_size : Nat

/-- The file-scope state of ipc.c (`ipc_queues`, a table of pointers shown
with the records they point to, and `ipc_queue_count`) together with byte
memory, the record of collaborator calls and the console. -/
structure IpcState where
  ipc_queues : List (Option IPCQueue)
  ipc_queue_count : Nat
  mem : Nat → Nat
  calls : List Call
  console : List String

/-- State of ipc.c before any call. -/
def IpcState.boot : IpcState :=
  { ipc_queues := List.replicate MAX_IPC_QUEUES none, ipc_queue_count := 0,
    mem := fun _ => 0, calls := [], console := [] }

/-- The function `ipc_system_init`. -/
def ipc_system_init (s : IpcState) : ErrorCode × IpcState :=
  (ERR_SUCCESS,
    { s with ipc_queues := List.replicate MAX_IPC_QUEUES none, ipc_queue_count := 0,
             console := s.console ++ ["Initializing IPC system...\n", "  IPC system ready\n"] })

/-- The lookup `ipc_queue_find`: first non-empty slot whose queue has the id. -/
def ipc_queue_find : List (Option IPCQueue) → Nat → Option IPCQueue
  | [], _ => none
  | none :: rest, id => ipc_queue_find rest id
  | some q :: rest, id => if q.id = id then some q else ipc_queue_find rest id

/-- The insertion loop of `ipc_queue_create`: the first empty slot takes the
queue. -/
def insert_queue : List (Option IPCQueue) → IPCQueue → List (Option IPCQueue)
  | [], _ => []
  | none :: rest, q => some q :: rest
  | some x :: rest, q => some x :: insert_queue rest q

/-- The removal loop of `ipc_queue_delete`: the first slot that holds the
pointer is cleared. -/
def clear_queue : List (Option IPCQueue) → Nat → List (Option IPCQueue)
  | [], _ => []
  | none :: rest, ptr => none :: clear_queue rest ptr
  | some x :: rest, ptr => if x.self = ptr then none :: rest else some x :: clear_queue rest ptr

/-- The table after a write through the pointer `ipc_queue_find` returned:
the record of the first slot with the id is replaced. -/
def store_queue : List (Option IPCQueue) → Nat → IPCQueue → List (Option IPCQueue)
  | [], _, _ => []
  | none :: rest, id, q => none :: store_queue rest id q
  | some x :: rest, id, q =>
    if x.id = id then some q :: rest else some x :: store_queue rest id q

/-- The function `ipc_queue_create`: the pointer returned (`0` is `NULL`) and
the state after the call. -/
def ipc_queue_create (env : IpcEnv) (s : IpcState) (name : CStr) (max_messages : Nat) :
    Nat × IpcState :=
  if s.ipc_queue_count ≥ MAX_IPC_QUEUES then
    (0, { s with console := s.console ++ ["ERROR: IPC queue limit reached\n"] })
  else
    let queue := env.queue_alloc
    let s := { s with calls := s.calls ++ [Call.memory_alloc env.sizeof_queue queue] }
    if queue = 0 then
      (0, { s with console := s.console ++ ["ERROR: Failed to allocate IPC queue\n"] })
    else
      let bytes := (max_messages * env.sizeof_message) % U32
      let messages := env.messages_alloc
      let s := { s with calls := s.calls ++ [Call.memory_alloc bytes messages] }
      if messages = 0 then
        let s := { s with console := s.console ++ ["ERROR: Failed to allocate message buffer\n"] }
        (0, { s with calls := s.calls ++ [Call.memory_free queue] })
      else
        let q : IPCQueue :=
          { self := queue
            id := (s.ipc_queue_count + 1) % U32
            name := name.take (env.sizeof_name - 1)
            max_messages := max_messages
            message_size := env.sizeof_message
            messages_ptr := messages
            messages := List.replicate max_messages IPCMessage.zero
            count := 0
            head := 0
            tail := 0 }
        let s := { s with ipc_queues := insert_queue s.ipc_queues q,
                          ipc_queue_count := (s.ipc_queue_count + 1) % U32 }
        (queue, { s with console := s.console ++ ["  Created IPC queue: %s (ID: %d)\n"] })

/-- The search loop of `ipc_send`: the first slot whose `sender_pid` is 0. -/
def free_slot : List IPCMessage → Option Nat
  | [] => none
  | m :: rest =>
    if m.sender_pid = 0 then some 0
    else
      match free_slot rest with
      | none => none
      | some i => some (i + 1)

/-- The function `ipc_send`. -/
def ipc_send (env : IpcEnv) (s : IpcState) (queue_id data size timeout : Nat) :
    ErrorCode × IpcState :=
  match ipc_queue_find s.ipc_queues queue_id with
  | none => (ERR_NOT_FOUND, s)
  | some queue =>
    if queue.count ≥ queue.max_messages then
      if timeout = 0 then (ERR_IPC_QUEUE_FULL, s) else (ERR_BUSY, s)
    else
      match free_slot queue.messages with
      | none => (ERR_GENERIC, s)
      | some i =>
        let msg := queue.messages.getD i IPCMessage.zero
        let pid := match env.current_pid with
          | some p => p
          | none => 0
        let msg := { msg with sender_pid := pid, receiver_pid := 0, size := size,
                              timestamp := env.system_ticks }
        let copied := if size > env.max_message_size then env.max_message_size else size
        let mem := if size > 0 ∧ data ≠ 0 then memcpy s.mem msg.data data copied else s.mem
        let queue := { queue with messages := queue.messages.set i msg,
                                  count := (queue.count + 1) % U32,
                                  tail := (queue.tail + 1) % queue.max_messages }
        (ERR_SUCCESS, { s with ipc_queues := store_queue s.ipc_queues queue_id queue, mem := mem })

/-- The part of `ipc_receive` that takes the message at `head` of a queue that
is not empty: the result, what is written to `actual_size` and the state. -/
def take_message (s : IpcState) (queue : IPCQueue) (queue_id buffer buffer_size : Nat) :
    ErrorCode × Option Nat × IpcState :=
  let msg := queue.messages.getD queue.head IPCMessage.zero
  let copy_size := if msg.size > buffer_size then buffer_size else msg.size
  let mem := if copy_size > 0 then memcpy s.mem buffer msg.data copy_size else s.mem
  let queue := { queue with messages := queue.messages.set queue.head IPCMessage.zero,
                            count := (queue.count + U32 - 1) % U32,
                            head := (queue.head + 1) % queue.max_messages }
  (ERR_SUCCESS, some copy_size,
    { s with ipc_queues := store_queue s.ipc_queues queue_id queue, mem := mem })

/-- The function `ipc_receive`, by cases on `timeout`: the result, what is
written to `actual_size` (nothing when `none`) and the state after the call.
The yield of a blocked receiver returns with the queue as it was, and the
call is repeated with `timeout - 1`. -/
def ipc_receive (env : IpcEnv) (s : IpcState) (queue_id buffer buffer_size : Nat) :
    Nat → ErrorCode × Option Nat × IpcState
  | 0 =>
    match ipc_queue_find s.ipc_queues queue_id with
    | none => (ERR_NOT_FOUND, none, s)
    | some queue =>
      if queue.count = 0 then (ERR_NOT_FOUND, none, s)
      else take_message s queue queue_id buffer buffer_size
  | timeout + 1 =>
    match ipc_queue_find s.ipc_queues queue_id with
    | none => (ERR_NOT_FOUND, none, s)
    | some queue =>
      if queue.count = 0 then
        match env.current_pid with
        | some _ => ipc_receive env s queue_id buffer buffer_size timeout
        | none => (ERR_BUSY, none, s)
      else take_message s queue queue_id buffer buffer_size

/-- The function `ipc_queue_delete`. -/
def ipc_queue_delete (s : IpcState) (id : Nat) : ErrorCode × IpcState :=
  match ipc_queue_find s.ipc_queues id with
  | none => (ERR_NOT_FOUND, s)
  | some queue =>
    let s := { s with console := s.console ++ ["Deleting IPC queue: %s (ID: %d)\n"] }
    let s := { s with ipc_queues := clear_queue s.ipc_queues queue.self }
    let s := if queue.messages_ptr ≠ 0 then
        { s with calls := s.calls ++ [Call.memory_free queue.messages_ptr] }
      else s
    let s := { s with calls := s.calls ++ [Call.memory_free queue.self] }
    (ERR_SUCCESS, { s with ipc_queue_count := (s.ipc_queue_count + U32 - 1) % U32 })

/-! ## Concrete inputs for syscall.c and ipc.c -/

/-- A table with one handler, at `SYS_GETPID` (5), that returns `arg1 + 1`. -/
def demo_syscall_table : SyscallTable :=
  fun i => if i = 5 then some (fun p => p.arg1 + 1) else none

/-- A parameter block for system call `num` with `arg1 = 41`. -/
def demo_params (num : Nat) : SyscallParams :=
  { syscall_num := num, arg1 := 41, arg2 := 0, arg3 := 0, arg4 := 0, arg5 := 0, result := 0 }

/-- Collaborators of ipc.c: the two allocations succeed at the given
addresses, the current process has pid 7. -/
def ipc_env (queue_alloc messages_alloc : Nat) : IpcEnv :=
  { queue_alloc := queue_alloc, messages_alloc := messages_alloc, current_pid := some 7,
    system_ticks := 100, sizeof_queue := 64, sizeof_message := 40, sizeof_name := 32,
    max_message_size := 256 }

/-- The state after `ipc_system_init`. -/
def ipc_ready : IpcState := (ipc_system_init IpcState.boot).2

/-- One queue of three slots, with id 1. -/
def fifo_0 : IpcState := (ipc_queue_create (ipc_env 36864 40960) ipc_ready "q".toList 3).2

/-- After the first message, of size 1, is sent. -/
def fifo_1 : IpcState := (ipc_send (ipc_env 0 0) fifo_0 1 20480 1 0).2

/-- After the second message, of size 2, is sent. -/
def fifo_2 : IpcState := (ipc_send (ipc_env 0 0) fifo_1 1 20480 2 0).2

/-- After the first receive. -/
def fifo_3 : IpcState := (ipc_receive (ipc_env 0 0) fifo_2 1 24576 16 0).2.2

/-- After the third message, of size 3, is sent. -/
def fifo_4 : IpcState := (ipc_send (ipc_env 0 0) fifo_3 1 20480 3 0).2

/-- After the second receive. -/
def fifo_5 : IpcState := (ipc_receive (ipc_env 0 0) fifo_4 1 24576 16 0).2.2

/-- The sizes of the messages in the slots of queue `id`, slot 0 first. -/
def slot_sizes (s : IpcState) (id : Nat) : List Nat :=
  match ipc_queue_find s.ipc_queues id with
  | none => []
  | some q => q.messages.map (fun m => m.size)

/-- The `count` of queue `id` (0 when there is none). -/
def queue_count (s : IpcState) (id : Nat) : Nat :=
  match ipc_queue_find s.ipc_queues id with
  | none => 0
  | some q => q.count

/-- The ids of the queues in the table, in slot order. -/
def live_ids (s : IpcState) : List Nat :=
  s.ipc_queues.filterMap (fun slot => slot.map (fun q => q.id))

/-- The addresses of the queues in the table, in slot order. -/
def live_ptrs (s : IpcState) : List Nat :=
  s.ipc_queues.filterMap (fun slot => slot.map (fun q => q.self))

/-- After a first queue is created at 36864: id 1. -/
def ids_1 : IpcState := (ipc_queue_create (ipc_env 36864 40960) ipc_ready "a".toList 4).2

/-- After a second queue is created at 37120: id 2. -/
def ids_2 : IpcState := (ipc_queue_create (ipc_env 37120 41216) ids_1 "b".toList 4).2

/-- After the first queue is deleted. -/
def ids_3 : IpcState := (ipc_queue_delete ids_2 1).2

/-- After a third queue is created at 37376. -/
def ids_4 : IpcState := (ipc_queue_create (ipc_env 37376 41472) ids_3 "c".toList 4).2

/-- The number of non-empty slots of the queue table. -/
def occupied : List (Option IPCQueue) → Nat
  | [] => 0
  | none :: rest => occupied rest
  | some _ :: rest => occupied rest + 1

/-- The states ipc.c can be in after `ipc_system_init` and any sequence of
`ipc_queue_create` and `ipc_queue_delete` calls. -/
inductive IpcReachable : IpcState → Prop where
  | init (s : IpcState) : IpcReachable (ipc_system_init s).2
  | create (env : IpcEnv) (s : IpcState) (name : CStr) (max_messages : Nat) :
      IpcReachable s → IpcReachable (ipc_queue_create env s name max_messages).2
  | delete (s : IpcState) (id : Nat) :
      IpcReachable s → IpcReachable (ipc_queue_delete s id).2

/-! ## The branches of `module_load` -/

theorem kprintf_module_list (s : Kernel) (fmt : String) :
    (kprintf s fmt).module_list = s.module_list := rfl

theorem module_load_exists (env : Env) (s : Kernel) (filename : CStr) (e : ModuleEntry)
    (hfind : module_find s.module_list filename = some e) :
    (module_load env s filename).1 = ERR_EXISTS
    ∧ (module_load env s filename).2.1 = some e.info
    ∧ (module_load env s filename).2.2.module_list = s.module_list
    ∧ (module_load env s filename).2.2.module_count = s.module_count
    ∧ (module_load env s filename).2.2.calls = s.calls := by
  simp [module_load, kprintf, hfind]

theorem module_load_no_file (env : Env) (s : Kernel) (filename : CStr)
    (hfind : module_find s.module_list filename = none)
    (hbuf : load_buf env filename = 0) :
    (module_load env s filename).1 = ERR_NOT_FOUND
    ∧ (module_load env s filename).2.1 = none
    ∧ (module_load env s filename).2.2.module_list = s.module_list
    ∧ (module_load env s filename).2.2.module_count = s.module_count
    ∧ (module_load env s filename).2.2.calls = s.calls ++
        [Call.filesystem_load_file filename 0 (load_file env filename).length] := by
  simp only [load_buf, load_file] at *
  simp [module_load, kprintf, record, hfind, hbuf]

theorem module_load_invalid (env : Env) (s : Kernel) (filename : CStr)
    (hfind : module_find s.module_list filename = none)
    (hbuf : load_buf env filename ≠ 0)
    (hmagic : (load_header env s filename).magic ≠ MODULE_MAGIC) :
    (module_load env s filename).1 = ERR_INVALID_MODULE
    ∧ (module_load env s filename).2.1 = none
    ∧ (module_load env s filename).2.2.module_list = s.module_list
    ∧ (module_load env s filename).2.2.module_count = s.module_count
    ∧ (module_load env s filename).2.2.calls = s.calls ++
        [Call.filesystem_load_file filename (load_buf env filename) (load_file env filename).length,
         Call.memory_free (load_buf env filename)] := by
  simp only [load_buf, load_file, load_header] at *
  simp [module_load, kprintf, record, memory_free, hfind, hbuf, hmagic]

theorem module_load_no_region (env : Env) (s : Kernel) (filename : CStr)
    (hfind : module_find s.module_list filename = none)
    (hbuf : load_buf env filename ≠ 0)
    (hmagic : (load_header env s filename).magic = MODULE_MAGIC)
    (hbase : load_base env s filename = 0) :
    (module_load env s filename).1 = ERR_NO_MEMORY
    ∧ (module_load env s filename).2.1 = none
    ∧ (module_load env s filename).2.2.module_list = s.module_list
    ∧ (module_load env s filename).2.2.module_count = s.module_count
    ∧ (module_load env s filename).2.2.calls = s.calls ++
        [Call.filesystem_load_file filename (load_buf env filename) (load_file env filename).length,
         Call.memory_alloc_module (load_size env s filename) 0,
         Call.memory_free (load_buf env filename)] := by
  simp only [load_buf, load_file, load_header, load_base, load_size] at *
  simp [module_load, kprintf, record, memory_free, hfind, hbuf, hmagic, hbase]

theorem module_load_no_record (env : Env) (s : Kernel) (filename : CStr)
    (hfind : module_find s.module_list filename = none)
    (hbuf : load_buf env filename ≠ 0)
    (hmagic : (load_header env s filename).magic = MODULE_MAGIC)
    (hbase : load_base env s filename ≠ 0)
    (hentry : load_entry env = 0) :
    (module_load env s filename).1 = ERR_NO_MEMORY
    ∧ (module_load env s filename).2.1 = none
    ∧ (module_load env s filename).2.2.module_list = s.module_list
    ∧ (module_load env s filename).2.2.module_count = s.module_count
    ∧ (module_load env s filename).2.2.calls = s.calls ++
        [Call.filesystem_load_file filename (load_buf env filename) (load_file env filename).length,
         Call.memory_alloc_module (load_size env s filename) (load_base env s filename),
         Call.memory_alloc SIZEOF_MODULE_ENTRY 0,
         Call.memory_free (load_base env s filename),
         Call.memory_free (load_buf env filename)] := by
  simp only [load_buf, load_file, load_header, load_base, load_size, load_entry] at *
  simp [module_load, kprintf, record, memory_free, hfind, hbuf, hmagic, hbase, hentry]

theorem module_load_init_failed (env : Env) (s : Kernel) (filename : CStr)
    (hfind : module_find s.module_list filename = none)
    (hbuf : load_buf env filename ≠ 0)
    (hmagic : (load_header env s filename).magic = MODULE_MAGIC)
    (hbase : load_base env s filename ≠ 0)
    (hentry : load_entry env ≠ 0)
    (hinit : load_init_result env s filename ≠ ERR_SUCCESS) :
    (module_load env s filename).1 = load_init_result env s filename
    ∧ (module_load env s filename).2.1 = none
    ∧ (module_load env s filename).2.2.module_list = s.module_list
    ∧ (module_load env s filename).2.2.module_count = s.module_count
    ∧ (module_load env s filename).2.2.calls = s.calls ++
        [Call.filesystem_load_file filename (load_buf env filename) (load_file env filename).length,
         Call.memory_alloc_module (load_size env s filename) (load_base env s filename),
         Call.memory_alloc SIZEOF_MODULE_ENTRY (load_entry env),
         Call.init_hook (load_exports env s filename) 0 (load_init_result env s filename),
         Call.memory_free (load_base env s filename),
         Call.memory_free (load_entry env),
         Call.memory_free (load_buf env filename)] := by
  simp only [load_buf, load_file, load_header, load_base, load_size, load_entry,
    load_init_result, load_exports] at *
  simp [module_load, kprintf, record, memory_free, hfind, hbuf, hmagic, hbase, hentry, hinit]

theorem module_load_success (env : Env) (s : Kernel) (filename : CStr)
    (hfind : module_find s.module_list filename = none)
    (hbuf : load_buf env filename ≠ 0)
    (hmagic : (load_header env s filename).magic = MODULE_MAGIC)
    (hbase : load_base env s filename ≠ 0)
    (hentry : load_entry env ≠ 0)
    (hinit : load_init_result env s filename = ERR_SUCCESS) :
    (module_load env s filename).1 = ERR_SUCCESS
    ∧ (module_load env s filename).2.1 = some (load_record env s filename).info
    ∧ (module_load env s filename).2.2.module_list = load_record env s filename :: s.module_list
    ∧ (module_load env s filename).2.2.module_count = (s.module_count + 1) % U32
    ∧ (module_load env s filename).2.2.calls = s.calls ++
        [Call.filesystem_load_file filename (load_buf env filename) (load_file env filename).length,
         Call.memory_alloc_module (load_size env s filename) (load_base env s filename),
         Call.memory_alloc SIZEOF_MODULE_ENTRY (load_entry env),
         Call.init_hook (load_exports env s filename) 0 ERR_SUCCESS,
         Call.memory_free (load_buf env filename)] := by
  simp only [load_buf, load_file, load_header, load_base, load_size, load_entry,
    load_init_result, load_exports, load_record] at *
  simp [module_load, kprintf, record, memory_free, hfind, hbuf, hmagic, hbase, hentry, hinit]

/-- A load that returns `ERR_SUCCESS` went through every step of the loader. -/
theorem module_load_success_inv (env : Env) (s : Kernel) (filename : CStr)
    (h : (module_load env s filename).1 = ERR_SUCCESS) :
    module_find s.module_list filename = none
    ∧ load_buf env filename ≠ 0
    ∧ (load_header env s filename).magic = MODULE_MAGIC
    ∧ load_base env s filename ≠ 0
    ∧ load_entry env ≠ 0
    ∧ load_init_result env s filename = ERR_SUCCESS := by
  cases hfind : module_find s.module_list filename with
  | some e =>
    rw [(module_load_exists env s filename e hfind).1] at h
    exact absurd h (by decide)
  | none =>
    by_cases hbuf : load_buf env filename = 0
    · rw [(module_load_no_file env s filename hfind hbuf).1] at h
      exact absurd h (by decide)
    by_cases hmagic : (load_header env s filename).magic = MODULE_MAGIC
    swap
    · rw [(module_load_invalid env s filename hfind hbuf hmagic).1] at h
      exact absurd h (by decide)
    by_cases hbase : load_base env s filename = 0
    · rw [(module_load_no_region env s filename hfind hbuf hmagic hbase).1] at h
      exact absurd h (by decide)
    by_cases hentry : load_entry env = 0
    · rw [(module_load_no_record env s filename hfind hbuf hmagic hbase hentry).1] at h
      exact absurd h (by decide)
    by_cases hinit : load_init_result env s filename = ERR_SUCCESS
    · exact ⟨rfl, hbuf, hmagic, hbase, hentry, hinit⟩
    · rw [(module_load_init_failed env s filename hfind hbuf hmagic hbase hentry hinit).1] at h
      exact absurd h hinit

/-- A load that does not return `ERR_SUCCESS` leaves the registry as it was. -/
theorem module_load_failure_frame (env : Env) (s : Kernel) (filename : CStr)
    (h : (module_load env s filename).1 ≠ ERR_SUCCESS) :
    (module_load env s filename).2.2.module_list = s.module_list
    ∧ (module_load env s filename).2.2.module_count = s.module_count := by
  cases hfind : module_find s.module_list filename with
  | some e =>
    have := module_load_exists env s filename e hfind
    exact ⟨this.2.2.1, this.2.2.2.1⟩
  | none =>
    by_cases hbuf : load_buf env filename = 0
    · have := module_load_no_file env s filename hfind hbuf
      exact ⟨this.2.2.1, this.2.2.2.1⟩
    by_cases hmagic : (load_header env s filename).magic = MODULE_MAGIC
    swap
    · have := module_load_invalid env s filename hfind hbuf hmagic
      exact ⟨this.2.2.1, this.2.2.2.1⟩
    by_cases hbase : load_base env s filename = 0
    · have := module_load_no_region env s filename hfind hbuf hmagic hbase
      exact ⟨this.2.2.1, this.2.2.2.1⟩
    by_cases hentry : load_entry env = 0
    · have := module_load_no_record env s filename hfind hbuf hmagic hbase hentry
      exact ⟨this.2.2.1, this.2.2.2.1⟩
    by_cases hinit : load_init_result env s filename = ERR_SUCCESS
    · exact absurd (module_load_success env s filename hfind hbuf hmagic hbase hentry hinit).1 h
    · have := module_load_init_failed env s filename hfind hbuf hmagic hbase hentry hinit
      exact ⟨this.2.2.1, this.2.2.2.1⟩

/-- After a successful load, a query under the stored name (the first 31
characters of the file name) returns the info the load returned. -/
theorem module_load_query_stored_name (env : Env) (s : Kernel) (filename : CStr)
    (h : (module_load env s filename).1 = ERR_SUCCESS) :
    ∃ info, (module_load env s filename).2.1 = some info
      ∧ module_query (module_load env s filename).2.2 (filename.take 31)
          = (ERR_SUCCESS, some info) := by
  obtain ⟨hfind, hbuf, hmagic, hbase, hentry, hinit⟩ := module_load_success_inv env s filename h
  obtain ⟨-, hout, hlist, -, -⟩ :=
    module_load_success env s filename hfind hbuf hmagic hbase hentry hinit
  refine ⟨_, hout, ?_⟩
  simp [module_query, hlist, module_find, load_record]

/-- After a successful load of a file name of at most 31 characters, a query
of that file name returns the info the load returned. -/
theorem module_load_query_short_name (env : Env) (s : Kernel) (filename : CStr)
    (hlen : filename.length ≤ 31)
    (h : (module_load env s filename).1 = ERR_SUCCESS) :
    ∃ info, (module_load env s filename).2.1 = some info
      ∧ module_query (module_load env s filename).2.2 filename = (ERR_SUCCESS, some info) := by
  have := module_load_query_stored_name env s filename h
  rwa [List.take_of_length_le hlen] at this

/-- While the module loaded under a file name of at most 31 characters is
registered, a second load of that name is rejected with `ERR_EXISTS`. -/
theorem module_load_twice_short_name (env env2 : Env) (s : Kernel) (filename : CStr)
    (hlen : filename.length ≤ 31)
    (h : (module_load env s filename).1 = ERR_SUCCESS) :
    (module_load env2 (module_load env s filename).2.2 filename).1 = ERR_EXISTS
    ∧ (module_load env2 (module_load env s filename).2.2 filename).2.1
        = (module_load env s filename).2.1
    ∧ (module_load env2 (module_load env s filename).2.2 filename).2.2.module_list
        = (module_load env s filename).2.2.module_list
    ∧ (module_load env2 (module_load env s filename).2.2 filename).2.2.module_count
        = (module_load env s filename).2.2.module_count
    ∧ (module_load env2 (module_load env s filename).2.2 filename).2.2.calls
        = (module_load env s filename).2.2.calls := by
  obtain ⟨hfind, hbuf, hmagic, hbase, hentry, hinit⟩ := module_load_success_inv env s filename h
  obtain ⟨-, hout, hlist, -, -⟩ :=
    module_load_success env s filename hfind hbuf hmagic hbase hentry hinit
  have hf : module_find (module_load env s filename).2.2.module_list filename
      = some (load_record env s filename) := by
    rw [hlist]
    simp [module_find, load_record, List.take_of_length_le hlen]
  have := module_load_exists env2 _ filename _ hf
  rw [hout]
  exact this

/-! ## Allocator state -/

theorem live_blocks_append (calls more : List Call) :
    live_blocks (calls ++ more) = more.foldl live_step (live_blocks calls) := by
  simp [live_blocks, List.foldl_append]

theorem live_blocks_load_free (calls : List Call) (filename : CStr) (p n : Nat) (hp : p ≠ 0) :
    live_blocks (calls ++ [Call.filesystem_load_file filename p n, Call.memory_free p])
      = live_blocks calls := by
  rw [live_blocks_append]
  simp [live_step, hp]

/-! ## Claims on `module_load` -/

/-- C1 (failing input): the load of a 32-character file name succeeds and
returns an info, and the query of the same file name in the resulting state
returns `ERR_NOT_FOUND` and writes nothing, because the record is stored under
the first 31 characters only. -/
theorem module_load_long_name_then_query :
    (module_load env_a Kernel.initial long_name).1 = ERR_SUCCESS
    ∧ (module_load env_a Kernel.initial long_name).2.1 = some (demo_info MODULE_TYPE_UTILITY)
    ∧ module_query (module_load env_a Kernel.initial long_name).2.2 long_name
        = (ERR_NOT_FOUND, none) := by
  decide

/-- C2 (failing input): after the successful load of a 32-character file name,
a second load of the same file name is not rejected with `ERR_EXISTS`: it
reads storage, allocates a region and a record, runs `init`, returns
`ERR_SUCCESS`, and leaves two records with the same stored name and
`module_count = 2`. -/
theorem module_load_long_name_twice :
    (module_load env_a Kernel.initial long_name).1 = ERR_SUCCESS
    ∧ (module_load env_a Kernel.initial long_name).2.2.module_count = 1
    ∧ (module_load env_b (module_load env_a Kernel.initial long_name).2.2 long_name).1
        = ERR_SUCCESS
    ∧ twice_loaded.module_count = 2
    ∧ twice_loaded.module_list.map (fun e => e.name) = [long_name.take 31, long_name.take 31]
    ∧ twice_loaded.calls.drop (module_load env_a Kernel.initial long_name).2.2.calls.length
        = [Call.filesystem_load_file long_name 4096 40, Call.memory_alloc_module 8 8448,
           Call.memory_alloc SIZEOF_MODULE_ENTRY 12544, Call.init_hook 8448 0 ERR_SUCCESS,
           Call.memory_free 4096] := by
  decide

/-- C3: when `module_load` reads an image whose header magic is not
`MODULE_MAGIC`, it returns `ERR_INVALID_MODULE`, writes no info, leaves
`module_list` and `module_count` as they were, makes exactly two collaborator
calls (the storage read and the release of the raw buffer, so no module region
is requested), and the blocks handed out by the allocators are the same after
the call as before it. -/
theorem module_load_bad_magic (env : Env) (s : Kernel) (filename : CStr)
    (hfind : module_find s.module_list filename = none)
    (hbuf : load_buf env filename ≠ 0)
    (hmagic : (load_header env s filename).magic ≠ MODULE_MAGIC) :
    (module_load env s filename).1 = ERR_INVALID_MODULE
    ∧ (module_load env s filename).2.1 = none
    ∧ (module_load env s filename).2.2.module_list = s.module_list
    ∧ (module_load env s filename).2.2.module_count = s.module_count
    ∧ (module_load env s filename).2.2.calls = s.calls ++
        [Call.filesystem_load_file filename (load_buf env filename) (load_file env filename).length,
         Call.memory_free (load_buf env filename)]
    ∧ live_blocks (module_load env s filename).2.2.calls = live_blocks s.calls := by
  obtain ⟨h1, h2, h3, h4, h5⟩ := module_load_invalid env s filename hfind hbuf hmagic
  refine ⟨h1, h2, h3, h4, h5, ?_⟩
  rw [h5]
  exact live_blocks_load_free s.calls filename _ _ hbuf

/-- Witness of C3: the image with a wrong magic, loaded under a free name
into a registry that holds one module. -/
theorem module_load_bad_magic_witness :
    module_find (registry_of [core_entry]).module_list short_name = none
    ∧ load_buf env_bad_magic short_name ≠ 0
    ∧ (load_header env_bad_magic (registry_of [core_entry]) short_name).magic ≠ MODULE_MAGIC
    ∧ (module_load env_bad_magic (registry_of [core_entry]) short_name).1 = ERR_INVALID_MODULE
    ∧ (module_load env_bad_magic (registry_of [core_entry]) short_name).2.2.module_count = 1 :=
  have h := module_load_bad_magic env_bad_magic (registry_of [core_entry]) short_name
    rfl (by decide) (by decide)
  ⟨rfl, by decide, by decide, h.1, h.2.2.2.1⟩

/-- C10: when the `init` hook of an image that passed the earlier steps returns
`r` other than `ERR_SUCCESS`, `module_load` returns exactly `r`, writes no
info, leaves `module_list` and `module_count` as they were, and a following
`module_query` of the file name returns `ERR_NOT_FOUND`. -/
theorem module_load_init_failure (env : Env) (s : Kernel) (filename : CStr) (r : ErrorCode)
    (hfind : module_find s.module_list filename = none)
    (hbuf : load_buf env filename ≠ 0)
    (hmagic : (load_header env s filename).magic = MODULE_MAGIC)
    (hbase : load_base env s filename ≠ 0)
    (hentry : load_entry env ≠ 0)
    (hr : load_init_result env s filename = r)
    (hne : r ≠ ERR_SUCCESS) :
    (module_load env s filename).1 = r
    ∧ (module_load env s filename).2.1 = none
    ∧ (module_load env s filename).2.2.module_list = s.module_list
    ∧ (module_load env s filename).2.2.module_count = s.module_count
    ∧ module_query (module_load env s filename).2.2 filename = (ERR_NOT_FOUND, none) := by
  subst hr
  obtain ⟨h1, h2, h3, h4, -⟩ :=
    module_load_init_failed env s filename hfind hbuf hmagic hbase hentry hne
  refine ⟨h1, h2, h3, h4, ?_⟩
  simp [module_query, h3, hfind]

/-- Witness of C10: an `init` hook that returns `ERR_BUSY`, on a registry that
holds one module. -/
theorem module_load_init_failure_witness :
    module_find (registry_of [core_entry]).module_list short_name = none
    ∧ load_buf env_init_busy short_name ≠ 0
    ∧ (load_header env_init_busy (registry_of [core_entry]) short_name).magic = MODULE_MAGIC
    ∧ load_base env_init_busy (registry_of [core_entry]) short_name ≠ 0
    ∧ load_entry env_init_busy ≠ 0
    ∧ load_init_result env_init_busy (registry_of [core_entry]) short_name = ERR_BUSY
    ∧ (module_load env_init_busy (registry_of [core_entry]) short_name).1 = ERR_BUSY
    ∧ (module_load env_init_busy (registry_of [core_entry]) short_name).2.2.module_count = 1
    ∧ module_query (module_load env_init_busy (registry_of [core_entry]) short_name).2.2
        short_name = (ERR_NOT_FOUND, none) :=
  have h := module_load_init_failure env_init_busy (registry_of [core_entry]) short_name
    ERR_BUSY rfl (by decide) (by decide) (by decide) (by decide) rfl (by decide)
  ⟨rfl, by decide, by decide, by decide, by decide, rfl, h.1, h.2.2.2.1, h.2.2.2.2⟩

/-! ## The dependency check -/

/-- The dependency check answers true exactly when a record at another
address holds the address of `mod` among its first `dep_count` dependencies. -/
theorem module_check_dependencies_iff (l : List ModuleEntry) (mod : ModuleEntry) :
    module_check_dependencies l mod = true
      ↔ ∃ d ∈ l, d.self ≠ mod.self ∧ ∃ i, i < d.dep_count ∧ d.dependencies i = mod.self := by
  induction l with
  | nil => simp [module_check_dependencies]
  | cons curr next ih =>
    unfold module_check_dependencies
    by_cases hself : curr.self = mod.self
    · simp only [hself, if_true, ih, List.mem_cons]
      constructor
      · rintro ⟨d, hd, hne, hi⟩
        exact ⟨d, Or.inr hd, hne, hi⟩
      · rintro ⟨d, hd | hd, hne, hi⟩
        · subst hd
          exact absurd hself hne
        · exact ⟨d, hd, hne, hi⟩
    · simp only [hself, if_false]
      by_cases hany : (List.range curr.dep_count).any (fun i => curr.dependencies i == mod.self)
          = true
      · simp only [hany, if_true, true_iff]
        simp only [List.any_eq_true, List.mem_range, beq_iff_eq] at hany
        exact ⟨curr, List.mem_cons_self _ _, hself, hany⟩
      · simp only [hany, Bool.false_eq_true, if_false, ih, List.mem_cons]
        simp only [List.any_eq_true, List.mem_range, beq_iff_eq] at hany
        constructor
        · rintro ⟨d, hd, hne, hi⟩
          exact ⟨d, Or.inr hd, hne, hi⟩
        · rintro ⟨d, hd | hd, hne, hi⟩
          · subst hd
            exact absurd hi hany
          · exact ⟨d, hd, hne, hi⟩

/-! ## The branches of `module_unload` -/

theorem module_unload_not_found (env : Env) (s : Kernel) (name : CStr)
    (hfind : module_find s.module_list name = none) :
    (module_unload env s name).1 = ERR_NOT_FOUND
    ∧ (module_unload env s name).2.module_list = s.module_list
    ∧ (module_unload env s name).2.module_count = s.module_count
    ∧ (module_unload env s name).2.calls = s.calls := by
  simp [module_unload, kprintf, hfind]

theorem module_unload_permission (env : Env) (s : Kernel) (name : CStr) (curr : ModuleEntry)
    (hfind : module_find s.module_list name = some curr)
    (hcore : curr.info.type = MODULE_TYPE_CORE) :
    (module_unload env s name).1 = ERR_PERMISSION
    ∧ (module_unload env s name).2.module_list = s.module_list
    ∧ (module_unload env s name).2.module_count = s.module_count
    ∧ (module_unload env s name).2.calls = s.calls := by
  simp [module_unload, kprintf, hfind, hcore]

theorem module_unload_busy_branch (env : Env) (s : Kernel) (name : CStr) (curr : ModuleEntry)
    (hfind : module_find s.module_list name = some curr)
    (hcore : curr.info.type ≠ MODULE_TYPE_CORE)
    (hdep : module_check_dependencies s.module_list curr = true) :
    (module_unload env s name).1 = ERR_BUSY
    ∧ (module_unload env s name).2.module_list = s.module_list
    ∧ (module_unload env s name).2.module_count = s.module_count
    ∧ (module_unload env s name).2.calls = s.calls := by
  simp [module_unload, kprintf, hfind, hcore, hdep]

theorem module_unload_success (env : Env) (s : Kernel) (name : CStr) (curr : ModuleEntry)
    (hfind : module_find s.module_list name = some curr)
    (hcore : curr.info.type ≠ MODULE_TYPE_CORE)
    (hdep : module_check_dependencies s.module_list curr = false) :
    (module_unload env s name).1 = ERR_SUCCESS
    ∧ (module_unload env s name).2.module_list = unlink s.module_list name
    ∧ (module_unload env s name).2.module_count = (s.module_count + U32 - 1) % U32
    ∧ (module_unload env s name).2.calls = s.calls ++ exit_calls env curr ++
        [Call.memory_free_module curr.base_address curr.size, Call.memory_free curr.self] := by
  cases hexit : (env.exports_at curr.exports).exit with
  | none =>
    simp only [exit_calls, module_unload, kprintf, record, memory_free, memory_free_module,
      hfind, hcore, hdep, hexit]
    simp
  | some f =>
    by_cases hres : f () ≠ ERR_SUCCESS
    · have hres1 : (f () ≠ ERR_SUCCESS) = True := eq_true hres
      simp only [exit_calls, module_unload, kprintf, record, memory_free, memory_free_module,
        hfind, hcore, hdep, hexit, hres1]
      simp
    · have hres0 : (f () ≠ ERR_SUCCESS) = False := eq_false hres
      simp only [exit_calls, module_unload, kprintf, record, memory_free, memory_free_module,
        hfind, hcore, hdep, hexit, hres0]
      simp

/-- An unload that returns `ERR_SUCCESS` found a record that is not of kind
Core and has no dependents. -/
theorem module_unload_success_inv (env : Env) (s : Kernel) (name : CStr)
    (h : (module_unload env s name).1 = ERR_SUCCESS) :
    ∃ curr, module_find s.module_list name = some curr
      ∧ curr.info.type ≠ MODULE_TYPE_CORE
      ∧ module_check_dependencies s.module_list curr = false := by
  cases hfind : module_find s.module_list name with
  | none =>
    rw [(module_unload_not_found env s name hfind).1] at h
    exact absurd h (by decide)
  | some curr =>
    by_cases hcore : curr.info.type = MODULE_TYPE_CORE
    · rw [(module_unload_permission env s name curr hfind hcore).1] at h
      exact absurd h (by decide)
    cases hdep : module_check_dependencies s.module_list curr with
    | true =>
      rw [(module_unload_busy_branch env s name curr hfind hcore hdep).1] at h
      exact absurd h (by decide)
    | false => exact ⟨curr, rfl, hcore, hdep⟩

theorem module_find_name (l : List ModuleEntry) (name : CStr) (e : ModuleEntry)
    (h : module_find l name = some e) : e.name = name ∧ e ∈ l := by
  induction l with
  | nil => simp [module_find] at h
  | cons curr next ih =>
    unfold module_find at h
    by_cases hn : curr.name = name
    · simp only [hn, if_true, Option.some.injEq] at h
      subst h
      exact ⟨hn, List.mem_cons_self _ _⟩
    · simp only [hn, if_false] at h
      exact ⟨(ih h).1, List.mem_cons_of_mem _ (ih h).2⟩

theorem module_find_none_iff (l : List ModuleEntry) (name : CStr) :
    module_find l name = none ↔ ∀ e ∈ l, e.name ≠ name := by
  induction l with
  | nil => simp [module_find]
  | cons curr next ih =>
    unfold module_find
    by_cases hn : curr.name = name
    · simp [hn]
    · simp [hn, ih]

/-- In a list with pairwise distinct names, the name of the unlinked record
is no longer found. -/
theorem module_find_unlink (l : List ModuleEntry) (name : CStr)
    (hnodup : (l.map (fun e => e.name)).Nodup) :
    module_find (unlink l name) name = none := by
  induction l with
  | nil => simp [unlink, module_find]
  | cons curr next ih =>
    simp only [List.map_cons, List.nodup_cons] at hnodup
    unfold unlink
    by_cases hn : curr.name = name
    · simp only [hn, if_true]
      rw [module_find_none_iff]
      intro e he heq
      apply hnodup.1
      rw [hn, ← heq]
      exact List.mem_map_of_mem _ he
    · simp only [hn, if_false]
      unfold module_find
      simp only [hn, if_false]
      exact ih hnodup.2

/-- Effects of a successful unload: the record found under the name is
unlinked, `module_count` drops by one (modulo 2^32), and after the possible
`exit` hook call the module allocator receives `memory_free_module` with the
base address and size of that record, then the kernel heap the record. When
the names of the registry are pairwise distinct, a following query of the
name returns `ERR_NOT_FOUND`. -/
theorem module_unload_success_effects (env : Env) (s : Kernel) (name : CStr)
    (h : (module_unload env s name).1 = ERR_SUCCESS) :
    ∃ curr, module_find s.module_list name = some curr
      ∧ (module_unload env s name).2.module_list = unlink s.module_list name
      ∧ (module_unload env s name).2.module_count = (s.module_count + U32 - 1) % U32
      ∧ (module_unload env s name).2.calls = s.calls ++ exit_calls env curr ++
          [Call.memory_free_module curr.base_address curr.size, Call.memory_free curr.self]
      ∧ ((s.module_list.map (fun e => e.name)).Nodup →
          module_query (module_unload env s name).2 name = (ERR_NOT_FOUND, none)) := by
  obtain ⟨curr, hfind, hcore, hdep⟩ := module_unload_success_inv env s name h
  obtain ⟨-, h2, h3, h4⟩ := module_unload_success env s name curr hfind hcore hdep
  refine ⟨curr, hfind, h2, h3, h4, ?_⟩
  intro hnodup
  simp [module_query, h2, module_find_unlink _ _ hnodup]

/-! ## Claims on `module_unload` -/

/-- C4: for a registered module (the record found under the name) whose
`info.type` is `MODULE_TYPE_CORE`, `module_unload` returns `ERR_PERMISSION`
with no assumption on dependents, makes no collaborator or hook call (so the
`exit` hook is not called), and leaves `module_list`, `module_count` and the
record, its status included, as they were. -/
theorem module_unload_core (env : Env) (s : Kernel) (name : CStr) (M : ModuleEntry)
    (hfind : module_find s.module_list name = some M)
    (hcore : M.info.type = MODULE_TYPE_CORE) :
    (module_unload env s name).1 = ERR_PERMISSION
    ∧ (module_unload env s name).2.calls = s.calls
    ∧ (module_unload env s name).2.module_list = s.module_list
    ∧ (module_unload env s name).2.module_count = s.module_count
    ∧ module_find (module_unload env s name).2.module_list name = some M := by
  obtain ⟨h1, h2, h3, h4⟩ := module_unload_permission env s name M hfind hcore
  exact ⟨h1, h4, h2, h3, by rw [h2]; exact hfind⟩

/-- Witness of C4: a core module on which another module depends. -/
theorem module_unload_core_witness :
    module_find (registry_of [user_entry 12288, core_entry]).module_list "core".toList
      = some core_entry
    ∧ core_entry.info.type = MODULE_TYPE_CORE
    ∧ module_check_dependencies (registry_of [user_entry 12288, core_entry]).module_list
        core_entry = true
    ∧ (module_unload env_a (registry_of [user_entry 12288, core_entry]) "core".toList).1
        = ERR_PERMISSION
    ∧ (module_unload env_a (registry_of [user_entry 12288, core_entry])
        "core".toList).2.module_count = 2 :=
  have h := module_unload_core env_a (registry_of [user_entry 12288, core_entry])
    "core".toList core_entry rfl rfl
  ⟨rfl, rfl, by decide, h.1, h.2.2.2.1⟩

/-- C5 as stated fails: a module of kind Core on which another registered
module depends is unloaded with `ERR_PERMISSION`, not `ERR_BUSY`. -/
theorem core_with_dependent_unload_not_busy :
    module_find (registry_of [user_entry 12288, core_entry]).module_list core_entry.name
      = some core_entry
    ∧ (∃ d ∈ (registry_of [user_entry 12288, core_entry]).module_list,
        d.self ≠ core_entry.self ∧ ∃ i, i < d.dep_count ∧ d.dependencies i = core_entry.self)
    ∧ (module_unload env_a (registry_of [user_entry 12288, core_entry]) core_entry.name).1
        = ERR_PERMISSION
    ∧ (module_unload env_a (registry_of [user_entry 12288, core_entry]) core_entry.name).1
        ≠ ERR_BUSY := by
  refine ⟨rfl, ⟨user_entry 12288, ?_, ?_, 0, ?_, rfl⟩, by decide, by decide⟩
  · simp [registry_of]
  · decide
  · decide

/-- C5 (amended): for a registered module `M` (the record found under the
name) that is not of kind Core and on which a record at another address
depends, `module_unload` returns `ERR_BUSY`, makes no collaborator or hook
call, and leaves `module_list` and `module_count` as they were, so `M` is
still registered with the status it had. -/
theorem module_unload_with_dependent (env : Env) (s : Kernel) (name : CStr) (M : ModuleEntry)
    (hfind : module_find s.module_list name = some M)
    (hkind : M.info.type ≠ MODULE_TYPE_CORE)
    (hdep : ∃ d ∈ s.module_list, d.self ≠ M.self
      ∧ ∃ i, i < d.dep_count ∧ d.dependencies i = M.self) :
    (module_unload env s name).1 = ERR_BUSY
    ∧ (module_unload env s name).2.calls = s.calls
    ∧ (module_unload env s name).2.module_list = s.module_list
    ∧ (module_unload env s name).2.module_count = s.module_count
    ∧ M ∈ (module_unload env s name).2.module_list
    ∧ module_find (module_unload env s name).2.module_list name = some M := by
  have hcheck : module_check_dependencies s.module_list M = true :=
    (module_check_dependencies_iff s.module_list M).2 hdep
  obtain ⟨h1, h2, h3, h4⟩ := module_unload_busy_branch env s name M hfind hkind hcheck
  refine ⟨h1, h4, h2, h3, ?_, ?_⟩
  · rw [h2]
    exact (module_find_name _ _ _ hfind).2
  · rw [h2]
    exact hfind

/-- Witness of C5 (amended): an active utility module on which another module
depends. -/
theorem module_unload_with_dependent_witness :
    module_find (registry_of [user_entry 12544, util_entry]).module_list "util".toList
      = some util_entry
    ∧ util_entry.info.type ≠ MODULE_TYPE_CORE
    ∧ util_entry.status = MODULE_STATUS_ACTIVE
    ∧ (module_unload env_a (registry_of [user_entry 12544, util_entry]) "util".toList).1
        = ERR_BUSY
    ∧ (module_unload env_a (registry_of [user_entry 12544, util_entry])
        "util".toList).2.module_count = 2 :=
  have h := module_unload_with_dependent env_a (registry_of [user_entry 12544, util_entry])
    "util".toList util_entry rfl (by decide)
    ⟨user_entry 12544, by simp [registry_of], by decide, 0, by decide, rfl⟩
  ⟨rfl, by decide, rfl, h.1, h.2.2.2.1⟩

/-- C6 (failing input): after two successful loads of a 32-character file
name, the unload of the stored (31-character) name returns `ERR_SUCCESS`
and `module_count` drops from 2 to 1, but a following query of that name
returns `ERR_SUCCESS`, not `ERR_NOT_FOUND`: the second record of the same
name is still registered. -/
theorem module_unload_duplicate_name_then_query :
    twice_loaded.module_count = 2
    ∧ (module_unload env_a twice_loaded (long_name.take 31)).1 = ERR_SUCCESS
    ∧ (module_unload env_a twice_loaded (long_name.take 31)).2.module_count = 1
    ∧ (module_unload env_a twice_loaded (long_name.take 31)).2.calls.drop
        twice_loaded.calls.length
        = [Call.memory_free_module 8448 8, Call.memory_free 12544]
    ∧ module_query (module_unload env_a twice_loaded (long_name.take 31)).2
        (long_name.take 31) = (ERR_SUCCESS, some (demo_info MODULE_TYPE_UTILITY)) := by
  decide

/-! ## Claims on `module_call` -/

theorem module_call_not_active (env : Env) (s : Kernel) (name : CStr) (M : ModuleEntry)
    (idx params : Nat)
    (hfind : module_find s.module_list name = some M)
    (hstatus : M.status ≠ MODULE_STATUS_ACTIVE) :
    module_call env s name idx params = (0, kprintf s "Module not active: %s\n") := by
  simp [module_call, hfind, hstatus]

theorem module_call_bad_index (env : Env) (s : Kernel) (name : CStr) (M : ModuleEntry)
    (idx params : Nat)
    (hfind : module_find s.module_list name = some M)
    (hstatus : M.status = MODULE_STATUS_ACTIVE)
    (hidx : 15 ≤ idx) :
    module_call env s name idx params = (0, kprintf s "Invalid function index: %d\n") := by
  simp [module_call, hfind, hstatus, hidx]

theorem module_call_empty_slot (env : Env) (s : Kernel) (name : CStr) (M : ModuleEntry)
    (idx params : Nat)
    (hfind : module_find s.module_list name = some M)
    (hstatus : M.status = MODULE_STATUS_ACTIVE)
    (hidx : idx < 15)
    (hslot : (env.exports_at M.exports).functions ⟨idx, hidx⟩ = none) :
    module_call env s name idx params
      = (0, kprintf s "Function not implemented: index %d\n") := by
  have hge : ¬ idx ≥ 15 := by omega
  simp [module_call, hfind, hstatus, hge, hslot]

theorem module_call_populated_slot (env : Env) (s : Kernel) (name : CStr) (M : ModuleEntry)
    (idx params : Nat) (f : Nat → Nat)
    (hfind : module_find s.module_list name = some M)
    (hstatus : M.status = MODULE_STATUS_ACTIVE)
    (hidx : idx < 15)
    (hslot : (env.exports_at M.exports).functions ⟨idx, hidx⟩ = some f) :
    module_call env s name idx params
      = (f params, record s (Call.module_function M.exports idx params (f params))) := by
  have hge : ¬ idx ≥ 15 := by omega
  simp [module_call, hfind, hstatus, hge, hslot]

/-- C7 as stated fails: for an active registered module and slot index 15,
`module_call` prints the invalid-index diagnostic and returns `NULL`, and
`syscall_module_call` returns `ERR_GENERIC` (4294967295 as a `u32`), which
is not `ERR_INVALID_ARG` (4294967293). -/
theorem module_call_index_15_reports_generic :
    module_find (registry_of [util_entry]).module_list "util".toList = some util_entry
    ∧ util_entry.status = MODULE_STATUS_ACTIVE
    ∧ (module_call env_a (registry_of [util_entry]) "util".toList 15 7).1 = 0
    ∧ (module_call env_a (registry_of [util_entry]) "util".toList 15 7).2.console
        = ["Invalid function index: %d\n"]
    ∧ (module_call env_a (registry_of [util_entry]) "util".toList 15 7).2.calls = []
    ∧ (syscall_module_call env_a (registry_of [util_entry]) "util".toList 15 7).1
        = to_u32 ERR_GENERIC
    ∧ to_u32 ERR_GENERIC = 4294967295
    ∧ to_u32 ERR_INVALID_ARG = 4294967293
    ∧ (syscall_module_call env_a (registry_of [util_entry]) "util".toList 15 7).1
        ≠ to_u32 ERR_INVALID_ARG := by
  refine ⟨rfl, rfl, by decide⟩

/-- C7 (amended): for every registered module (the record found under the
name), whatever its status, and every slot index of 15 or more, `module_call`
invokes no module function, leaves the registry as it was and returns `NULL`,
after printing exactly one diagnostic: the invalid-index one when the module
is active, the not-active one otherwise; `syscall_module_call` ends in the
same state, stores `NULL` and returns `ERR_GENERIC`, not `ERR_INVALID_ARG`. -/
theorem module_call_index_out_of_range (env : Env) (s : Kernel) (name : CStr)
    (M : ModuleEntry) (idx params : Nat)
    (hfind : module_find s.module_list name = some M)
    (hidx : 15 ≤ idx) :
    (module_call env s name idx params).1 = 0
    ∧ (module_call env s name idx params).2.calls = s.calls
    ∧ (module_call env s name idx params).2.module_list = s.module_list
    ∧ (module_call env s name idx params).2.module_count = s.module_count
    ∧ (syscall_module_call env s name idx params).1 = to_u32 ERR_GENERIC
    ∧ (syscall_module_call env s name idx params).2.1 = 0
    ∧ (syscall_module_call env s name idx params).2.2.calls = s.calls
    ∧ (M.status = MODULE_STATUS_ACTIVE →
        (module_call env s name idx params).2.console
          = s.console ++ ["Invalid function index: %d\n"])
    ∧ (M.status ≠ MODULE_STATUS_ACTIVE →
        (module_call env s name idx params).2.console
          = s.console ++ ["Module not active: %s\n"])
    ∧ (syscall_module_call env s name idx params).2.2.console
        = (module_call env s name idx params).2.console
    ∧ (syscall_module_call env s name idx params).1 ≠ to_u32 ERR_INVALID_ARG := by
  have hne : to_u32 ERR_GENERIC ≠ to_u32 ERR_INVALID_ARG := by decide
  by_cases hstatus : M.status = MODULE_STATUS_ACTIVE
  · have h := module_call_bad_index env s name M idx params hfind hstatus hidx
    simp [syscall_module_call, h, kprintf, hstatus, hne]
  · have h := module_call_not_active env s name M idx params hfind hstatus
    simp [syscall_module_call, h, kprintf, hstatus, hne]

/-- Witness of C7 (amended): slot index 20 of a suspended module, which gets
the not-active diagnostic, and slot index 15 of an active module, which gets
the invalid-index diagnostic. -/
theorem module_call_index_out_of_range_witness :
    module_find (registry_of [suspended_entry]).module_list "idle".toList
      = some suspended_entry
    ∧ (module_call env_a (registry_of [suspended_entry]) "idle".toList 20 7).1 = 0
    ∧ (syscall_module_call env_a (registry_of [suspended_entry]) "idle".toList 20 7).1
        = 4294967295
    ∧ (module_call env_a (registry_of [suspended_entry]) "idle".toList 20 7).2.console
        = (registry_of [suspended_entry]).console ++ ["Module not active: %s\n"]
    ∧ module_find (registry_of [util_entry]).module_list "util".toList = some util_entry
    ∧ (module_call env_a (registry_of [util_entry]) "util".toList 15 7).1 = 0
    ∧ (module_call env_a (registry_of [util_entry]) "util".toList 15 7).2.console
        = (registry_of [util_entry]).console ++ ["Invalid function index: %d\n"] :=
  have h := module_call_index_out_of_range env_a (registry_of [suspended_entry])
    "idle".toList suspended_entry 20 7 rfl (by decide)
  have g := module_call_index_out_of_range env_a (registry_of [util_entry])
    "util".toList util_entry 15 7 rfl (by decide)
  ⟨rfl, h.1, h.2.2.2.2.1, h.2.2.2.2.2.2.2.2.1 (by decide), rfl, g.1,
    g.2.2.2.2.2.2.2.1 rfl⟩

/-- C8: for a registered module (the record found under the name) whose
status is not `MODULE_STATUS_ACTIVE`, and every slot index, `module_call`
takes the not-active exit: it returns `NULL`, invokes no module function,
leaves the registry as it was and prints the not-active diagnostic. -/
theorem module_call_inactive (env : Env) (s : Kernel) (name : CStr) (M : ModuleEntry)
    (idx params : Nat)
    (hfind : module_find s.module_list name = some M)
    (hstatus : M.status ≠ MODULE_STATUS_ACTIVE) :
    (module_call env s name idx params).1 = 0
    ∧ (module_call env s name idx params).2.calls = s.calls
    ∧ (module_call env s name idx params).2.module_list = s.module_list
    ∧ (module_call env s name idx params).2.module_count = s.module_count
    ∧ (module_call env s name idx params).2.console
        = s.console ++ ["Module not active: %s\n"] := by
  have h := module_call_not_active env s name M idx params hfind hstatus
  simp [h, kprintf]

/-- Witness of C8: the populated slot 0 of a suspended module. -/
theorem module_call_inactive_witness :
    module_find (registry_of [suspended_entry]).module_list "idle".toList
      = some suspended_entry
    ∧ suspended_entry.status ≠ MODULE_STATUS_ACTIVE
    ∧ (module_call env_a (registry_of [suspended_entry]) "idle".toList 0 7).1 = 0
    ∧ (module_call env_a (registry_of [suspended_entry]) "idle".toList 0 7).2.calls = [] :=
  have h := module_call_inactive env_a (registry_of [suspended_entry])
    "idle".toList suspended_entry 0 7 rfl (by decide)
  ⟨rfl, by decide, h.1, h.2.1⟩

/-- C9: for a registered active module (the record found under the name), a
slot index below 15 and any `params`: if the slot holds the callable `f`,
`module_call` returns `f params`, the only call made is that one call of the
slot, `module_list` and `module_count` are as before, and
`syscall_module_call` stores `f params` through its result pointer; if the
slot is empty, `module_call` takes the not-implemented exit: it returns
`NULL`, makes no call and prints the not-implemented diagnostic. -/
theorem module_call_dispatch (env : Env) (s : Kernel) (name : CStr) (M : ModuleEntry)
    (idx params : Nat)
    (hfind : module_find s.module_list name = some M)
    (hstatus : M.status = MODULE_STATUS_ACTIVE)
    (hidx : idx < 15) :
    (∀ f, (env.exports_at M.exports).functions ⟨idx, hidx⟩ = some f →
      (module_call env s name idx params).1 = f params
      ∧ (module_call env s name idx params).2.calls
          = s.calls ++ [Call.module_function M.exports idx params (f params)]
      ∧ (module_call env s name idx params).2.module_list = s.module_list
      ∧ (module_call env s name idx params).2.module_count = s.module_count
      ∧ (syscall_module_call env s name idx params).2.1 = f params)
    ∧ ((env.exports_at M.exports).functions ⟨idx, hidx⟩ = none →
      (module_call env s name idx params).1 = 0
      ∧ (module_call env s name idx params).2.calls = s.calls
      ∧ (module_call env s name idx params).2.module_list = s.module_list
      ∧ (module_call env s name idx params).2.module_count = s.module_count
      ∧ (module_call env s name idx params).2.console
          = s.console ++ ["Function not implemented: index %d\n"]) := by
  constructor
  · intro f hslot
    have h := module_call_populated_slot env s name M idx params f hfind hstatus hidx hslot
    simp [syscall_module_call, h, record]
  · intro hslot
    have h := module_call_empty_slot env s name M idx params hfind hstatus hidx hslot
    simp [h, kprintf]

/-- Witness of C9: slot 0 of the demonstration table returns its argument plus
one, slot 1 is empty. -/
theorem module_call_dispatch_witness :
    module_find (registry_of [util_entry]).module_list "util".toList = some util_entry
    ∧ util_entry.status = MODULE_STATUS_ACTIVE
    ∧ (module_call env_a (registry_of [util_entry]) "util".toList 0 41).1 = 42
    ∧ (module_call env_a (registry_of [util_entry]) "util".toList 0 41).2.calls
        = [Call.module_function 16640 0 41 42]
    ∧ (module_call env_a (registry_of [util_entry]) "util".toList 1 41).1 = 0
    ∧ (module_call env_a (registry_of [util_entry]) "util".toList 1 41).2.calls = [] :=
  have h0 := module_call_dispatch env_a (registry_of [util_entry]) "util".toList util_entry
    0 41 rfl rfl (by decide)
  have h1 := module_call_dispatch env_a (registry_of [util_entry]) "util".toList util_entry
    1 41 rfl rfl (by decide)
  ⟨rfl, rfl, (h0.1 (fun p => p + 1) rfl).1, (h0.1 (fun p => p + 1) rfl).2.1,
    (h1.2 rfl).1, (h1.2 rfl).2.1⟩

/-! ## Unlinking a record -/

/-- The record found under a name splits the list: no record before it has
the name, and unlinking removes exactly that record. -/
theorem unlink_split (l : List ModuleEntry) (name : CStr) (M : ModuleEntry)
    (hfind : module_find l name = some M) :
    ∃ before after, l = before ++ M :: after
      ∧ (∀ e ∈ before, e.name ≠ name)
      ∧ unlink l name = before ++ after := by
  induction l with
  | nil => simp [module_find] at hfind
  | cons curr next ih =>
    unfold module_find at hfind
    by_cases hn : curr.name = name
    · simp only [hn, if_true, Option.some.injEq] at hfind
      subst hfind
      refine ⟨[], next, rfl, ?_, ?_⟩
      · intro e he
        simp at he
      · simp [unlink, hn]
    · simp only [hn, if_false] at hfind
      obtain ⟨before, after, hl, hbefore, hun⟩ := ih hfind
      refine ⟨curr :: before, after, ?_, ?_, ?_⟩
      · simp [hl]
      · intro e he
        rcases List.mem_cons.1 he with h | h
        · rw [h]
          exact hn
        · exact hbefore e h
      · simp [unlink, hn, hun]

/-- In a registry with pairwise distinct names, after a successful unload of
a name every further unload of that name returns `ERR_NOT_FOUND` and changes
nothing. -/
theorem module_unload_again_not_found (env env2 : Env) (s : Kernel) (name : CStr)
    (hnodup : (s.module_list.map (fun e => e.name)).Nodup)
    (h : (module_unload env s name).1 = ERR_SUCCESS) :
    (module_unload env2 (module_unload env s name).2 name).1 = ERR_NOT_FOUND
    ∧ (module_unload env2 (module_unload env s name).2 name).2.module_list
        = (module_unload env s name).2.module_list
    ∧ (module_unload env2 (module_unload env s name).2 name).2.module_count
        = (module_unload env s name).2.module_count := by
  obtain ⟨curr, -, hlist, -, -, -⟩ := module_unload_success_effects env s name h
  have hnone : module_find (module_unload env s name).2.module_list name = none := by
    rw [hlist]
    exact module_find_unlink _ _ hnodup
  obtain ⟨h1, h2, h3, -⟩ := module_unload_not_found env2 _ name hnone
  exact ⟨h1, h2, h3⟩

/-- Unloading a name that no registered module has returns `ERR_NOT_FOUND`,
makes no call and leaves `module_list` and `module_count` as they were. -/
theorem module_unload_unknown_name (env : Env) (s : Kernel) (name : CStr)
    (hname : ∀ e ∈ s.module_list, e.name ≠ name) :
    (module_unload env s name).1 = ERR_NOT_FOUND
    ∧ (module_unload env s name).2.module_list = s.module_list
    ∧ (module_unload env s name).2.module_count = s.module_count
    ∧ (module_unload env s name).2.calls = s.calls :=
  module_unload_not_found env s name ((module_find_none_iff _ _).2 hname)


/-! ## More claims on `module_unload` -/

/-- C11: for a registered module `M` (the record found under the name) that is
not of kind Core and on which no record at another address depends, and for
every behaviour of the collaborators (an `exit` hook that is absent, succeeds
or returns any error), `module_unload` returns `ERR_SUCCESS`, unlinks exactly
that record from `module_list` and lowers `module_count` by one. -/
theorem module_unload_ignores_exit (env : Env) (s : Kernel) (name : CStr) (M : ModuleEntry)
    (hfind : module_find s.module_list name = some M)
    (hkind : M.info.type ≠ MODULE_TYPE_CORE)
    (hnodep : ¬ ∃ d ∈ s.module_list, d.self ≠ M.self
      ∧ ∃ i, i < d.dep_count ∧ d.dependencies i = M.self) :
    (module_unload env s name).1 = ERR_SUCCESS
    ∧ (∃ before after, s.module_list = before ++ M :: after
        ∧ (∀ e ∈ before, e.name ≠ name)
        ∧ (module_unload env s name).2.module_list = before ++ after)
    ∧ (module_unload env s name).2.module_list.length + 1 = s.module_list.length
    ∧ (module_unload env s name).2.module_count = (s.module_count + U32 - 1) % U32 := by
  have hcheck : module_check_dependencies s.module_list M = false := by
    cases hc : module_check_dependencies s.module_list M with
    | false => rfl
    | true => exact absurd ((module_check_dependencies_iff _ _).1 hc) hnodep
  obtain ⟨h1, h2, h3, -⟩ := module_unload_success env s name M hfind hkind hcheck
  obtain ⟨before, after, hl, hbefore, hun⟩ := unlink_split _ _ _ hfind
  refine ⟨h1, ⟨before, after, hl, hbefore, by rw [h2, hun]⟩, ?_, h3⟩
  rw [h2, hun, hl]
  simp
  omega

/-- Witness of C11: a utility module whose `exit` hook returns `ERR_GENERIC`. -/
theorem module_unload_ignores_exit_witness :
    module_find (registry_of [util_entry, core_entry]).module_list "util".toList
      = some util_entry
    ∧ util_entry.info.type ≠ MODULE_TYPE_CORE
    ∧ exit_calls env_exit_fails util_entry = [Call.exit_hook 16640 ERR_GENERIC]
    ∧ (module_unload env_exit_fails (registry_of [util_entry, core_entry]) "util".toList).1
        = ERR_SUCCESS
    ∧ (module_unload env_exit_fails (registry_of [util_entry, core_entry])
        "util".toList).2.module_list.length + 1 = 2 :=
  have h := module_unload_ignores_exit env_exit_fails (registry_of [util_entry, core_entry])
    "util".toList util_entry rfl (by decide)
    (by
      rw [← module_check_dependencies_iff]
      decide)
  ⟨rfl, by decide, by decide, h.1, h.2.2.1⟩

/-- C12 (failing input): after two successful loads of a 32-character file
name, the unload of the stored name succeeds, and the next unload of that
name succeeds again instead of returning `ERR_NOT_FOUND`; only the third
returns `ERR_NOT_FOUND`. -/
theorem module_unload_duplicate_name_twice :
    (module_unload env_a twice_loaded (long_name.take 31)).1 = ERR_SUCCESS
    ∧ (module_unload env_a (module_unload env_a twice_loaded (long_name.take 31)).2
        (long_name.take 31)).1 = ERR_SUCCESS
    ∧ (module_unload env_a (module_unload env_a (module_unload env_a twice_loaded
        (long_name.take 31)).2 (long_name.take 31)).2 (long_name.take 31)).1
        = ERR_NOT_FOUND := by
  decide


/-! ## Claims on reachable states -/

theorem load_run_reachable (n : Nat) : Reachable (load_run n) := by
  induction n with
  | zero => exact Reachable.initial
  | succ k ih => exact Reachable.load (nth_env k) (load_run k) (nth_name k) ih

/-- A load that passes every step succeeds whatever the number of registered
modules: `module_load` does not compare it with `MAX_MODULES`. -/
theorem module_load_no_cap (env : Env) (s : Kernel) (filename : CStr)
    (hfind : module_find s.module_list filename = none)
    (hbuf : load_buf env filename ≠ 0)
    (hmagic : (load_header env s filename).magic = MODULE_MAGIC)
    (hbase : load_base env s filename ≠ 0)
    (hentry : load_entry env ≠ 0)
    (hinit : load_init_result env s filename = ERR_SUCCESS) :
    (module_load env s filename).1 = ERR_SUCCESS
    ∧ (module_load env s filename).2.2.module_list.length = s.module_list.length + 1 := by
  obtain ⟨h1, -, h3, -, -⟩ :=
    module_load_success env s filename hfind hbuf hmagic hbase hentry hinit
  exact ⟨h1, by rw [h3]; rfl⟩

set_option maxRecDepth 100000 in
/-- C13 (failing input): after 64 successful loads of distinct names the
registry holds `MAX_MODULES` modules; the 65th load is not rejected, it
returns `ERR_SUCCESS` and the reachable registry then holds 65 modules. -/
theorem module_load_sixty_fifth :
    (load_run 64).module_list.length = MAX_MODULES
    ∧ (load_run 64).module_count = MAX_MODULES
    ∧ (module_load (nth_env 64) (load_run 64) (nth_name 64)).1 = ERR_SUCCESS
    ∧ Reachable (load_run 65)
    ∧ (load_run 65).module_list.length = 65
    ∧ (load_run 65).module_count = 65 :=
  ⟨by decide, by decide, by decide, load_run_reachable 65, by decide, by decide⟩

theorem twice_loaded_reachable : Reachable twice_loaded :=
  Reachable.load env_b _ long_name (Reachable.load env_a _ long_name Reachable.initial)

/-- C17 (failing input): the registry reached by two successful loads of one
32-character file name holds two records with the same stored name. -/
theorem reachable_duplicate_names :
    Reachable twice_loaded
    ∧ twice_loaded.module_list.map (fun e => e.name) = [long_name.take 31, long_name.take 31]
    ∧ ¬ (twice_loaded.module_list.map (fun e => e.name)).Nodup :=
  ⟨twice_loaded_reachable, by decide, by decide⟩

/-! ## The copy step -/

/-- Once the region is allocated, the memory `module_load` leaves is the
memory after its two copies, whatever happens afterwards. -/
theorem module_load_mem (env : Env) (s : Kernel) (filename : CStr)
    (hfind : module_find s.module_list filename = none)
    (hbuf : load_buf env filename ≠ 0)
    (hmagic : (load_header env s filename).magic = MODULE_MAGIC)
    (hbase : load_base env s filename ≠ 0) :
    (module_load env s filename).2.2.mem = load_mem env s filename := by
  by_cases hentry : load_entry env = 0
  · simp only [load_buf, load_file, load_header, load_base, load_size, load_entry,
      load_mem] at *
    simp [module_load, kprintf, record, memory_free, hfind, hbuf, hmagic, hbase, hentry]
  · by_cases hinit : load_init_result env s filename = ERR_SUCCESS
    · simp only [load_buf, load_file, load_header, load_base, load_size, load_entry,
        load_init_result, load_exports, load_mem] at *
      simp [module_load, kprintf, record, memory_free, hfind, hbuf, hmagic, hbase, hentry,
        hinit]
    · simp only [load_buf, load_file, load_header, load_base, load_size, load_entry,
        load_init_result, load_exports, load_mem] at *
      simp [module_load, kprintf, record, memory_free, hfind, hbuf, hmagic, hbase, hentry,
        hinit]

/-- A byte of the region after the two copies is the byte of the file at the
same offset past the header, when the sizes fit the file and the region does
not overlap the raw buffer. -/
theorem load_mem_at (env : Env) (s : Kernel) (filename : CStr) (i : Nat)
    (hi : i < (load_header env s filename).text_size + (load_header env s filename).data_size)
    (hfit : SIZEOF_MODULE_HEADER + (load_header env s filename).text_size
      + (load_header env s filename).data_size ≤ (load_file env filename).length)
    (hdisj : load_base env s filename + (load_header env s filename).text_size
        + (load_header env s filename).data_size ≤ load_buf env filename
      ∨ load_buf env filename + (load_file env filename).length ≤ load_base env s filename) :
    load_mem env s filename (load_base env s filename + i)
      = (load_file env filename).getD (SIZEOF_MODULE_HEADER + i) 0 := by
  simp only [load_mem, memcpy, store_bytes, SIZEOF_MODULE_HEADER] at *
  generalize (load_header env s filename).text_size = t at *
  generalize (load_header env s filename).data_size = d at *
  generalize load_base env s filename = base at *
  generalize load_buf env filename = buf at *
  generalize load_file env filename = file at *
  split_ifs <;> first | omega | (congr 1; omega)

theorem region_bytes_of_file (mem : Nat → Nat) (base n : Nat) (file : List Nat) (off : Nat)
    (hfit : off + n ≤ file.length)
    (h : ∀ i, i < n → mem (base + i) = file.getD (off + i) 0) :
    region_bytes mem base n = (file.drop off).take n := by
  apply List.ext_getElem
  · simp [region_bytes]
    omega
  · intro i h1 h2
    simp only [region_bytes, List.length_map, List.length_range] at h1
    simp only [region_bytes, List.getElem_map, List.getElem_range, List.getElem_take,
      List.getElem_drop]
    rw [h i h1, List.getD_eq_getElem _ _ (by omega)]

theorem image_text_data (file : List Nat) (t d : Nat) :
    image_text file t ++ image_data file t d = (file.drop SIZEOF_MODULE_HEADER).take (t + d) := by
  simp only [image_text, image_data, List.take_add, List.drop_drop]
/-- C19: when `module_load` reads an image with correct magic whose sizes fit
the file (`32 + text_size + data_size` does not exceed the file length, a
`u32`) and is granted a region that does not overlap the raw buffer, it asks
for `text_size + data_size` bytes and, after its two copies, the region holds
the text segment of the file (bytes `[32, 32 + text_size)`) followed at once
by its data segment (bytes `[32 + text_size, 32 + text_size + data_size)`). -/
theorem module_load_region_layout (env : Env) (s : Kernel) (filename : CStr)
    (hfind : module_find s.module_list filename = none)
    (hbuf : load_buf env filename ≠ 0)
    (hmagic : (load_header env s filename).magic = MODULE_MAGIC)
    (hbase : load_base env s filename ≠ 0)
    (hlen : (load_file env filename).length < U32)
    (hfit : SIZEOF_MODULE_HEADER + (load_header env s filename).text_size
      + (load_header env s filename).data_size ≤ (load_file env filename).length)
    (hdisj : load_base env s filename + (load_header env s filename).text_size
        + (load_header env s filename).data_size ≤ load_buf env filename
      ∨ load_buf env filename + (load_file env filename).length ≤ load_base env s filename) :
    load_size env s filename
      = (load_header env s filename).text_size + (load_header env s filename).data_size
    ∧ region_bytes (module_load env s filename).2.2.mem (load_base env s filename)
        (load_size env s filename)
      = image_text (load_file env filename) (load_header env s filename).text_size
        ++ image_data (load_file env filename) (load_header env s filename).text_size
            (load_header env s filename).data_size
    ∧ region_bytes (module_load env s filename).2.2.mem (load_base env s filename)
        (load_header env s filename).text_size
      = image_text (load_file env filename) (load_header env s filename).text_size
    ∧ region_bytes (module_load env s filename).2.2.mem
        (load_base env s filename + (load_header env s filename).text_size)
        (load_header env s filename).data_size
      = image_data (load_file env filename) (load_header env s filename).text_size
          (load_header env s filename).data_size := by
  have hsize : load_size env s filename
      = (load_header env s filename).text_size + (load_header env s filename).data_size := by
    unfold load_size
    apply Nat.mod_eq_of_lt
    simp only [SIZEOF_MODULE_HEADER] at hfit
    omega
  rw [module_load_mem env s filename hfind hbuf hmagic hbase, hsize]
  refine ⟨rfl, ?_, ?_, ?_⟩
  · rw [image_text_data]
    exact region_bytes_of_file _ _ _ _ _ (by omega)
      (fun i hi => load_mem_at env s filename i hi hfit hdisj)
  · unfold image_text
    apply region_bytes_of_file
    · omega
    · intro i hi
      exact load_mem_at env s filename i (by omega) hfit hdisj
  · unfold image_data
    apply region_bytes_of_file
    · omega
    · intro i hi
      have h := load_mem_at env s filename ((load_header env s filename).text_size + i)
        (by omega) hfit hdisj
      rw [← Nat.add_assoc, ← Nat.add_assoc] at h
      exact h

/-- Witness of C19: the 40-byte demonstration image, four bytes of text and
four of data, copied into the region at 8192. -/
theorem module_load_region_layout_witness :
    module_find Kernel.initial.module_list short_name = none
    ∧ (load_header env_a Kernel.initial short_name).magic = MODULE_MAGIC
    ∧ (load_file env_a short_name).length = 40
    ∧ load_size env_a Kernel.initial short_name = 8
    ∧ region_bytes (module_load env_a Kernel.initial short_name).2.2.mem
        (load_base env_a Kernel.initial short_name) (load_size env_a Kernel.initial short_name)
      = [0x90, 0x90, 0x90, 0xC3] ++ [1, 2, 3, 4] :=
  have h := module_load_region_layout env_a Kernel.initial short_name rfl (by decide)
    (by decide) (by decide) (by decide) (by decide) (by decide)
  ⟨rfl, by decide, by decide, h.1, h.2.1⟩

/-! ## Claims on the checks `module_load` makes -/

/-- C14 (failing input): an image with correct magic, an 8-byte region and
`export_offset = 1000` is not rejected with `ERR_INVALID_MODULE`:
`module_load` takes the export table at `region + 1000`, calls its `init`
hook, returns `ERR_SUCCESS` and registers the module. -/
theorem module_load_export_offset_unchecked :
    (load_header env_oob_export Kernel.initial short_name).magic = MODULE_MAGIC
    ∧ (load_header env_oob_export Kernel.initial short_name).export_offset = 1000
    ∧ load_size env_oob_export Kernel.initial short_name = 8
    ∧ (module_load env_oob_export Kernel.initial short_name).1 = ERR_SUCCESS
    ∧ (module_load env_oob_export Kernel.initial short_name).2.2.calls
        = [Call.filesystem_load_file short_name 4096 40, Call.memory_alloc_module 8 8192,
           Call.memory_alloc SIZEOF_MODULE_ENTRY 12288, Call.init_hook 9192 0 ERR_SUCCESS,
           Call.memory_free 4096]
    ∧ (module_load env_oob_export Kernel.initial short_name).2.2.module_count = 1 := by
  decide

set_option maxRecDepth 100000 in
/-- C15 (failing input): a file of 32 bytes whose header has correct magic,
`text_size = 100` and `data_size = 50` gets past validation: `module_load`
asks for a region of 150 bytes, copies 150 bytes that lie after the end of
the raw buffer (here zeros), returns `ERR_SUCCESS` and registers the module. -/
theorem module_load_sizes_unchecked :
    (load_file env_header_only short_name).length = 32
    ∧ (load_header env_header_only Kernel.initial short_name).magic = MODULE_MAGIC
    ∧ (load_header env_header_only Kernel.initial short_name).text_size = 100
    ∧ (load_header env_header_only Kernel.initial short_name).data_size = 50
    ∧ (module_load env_header_only Kernel.initial short_name).1 = ERR_SUCCESS
    ∧ (module_load env_header_only Kernel.initial short_name).2.2.calls
        = [Call.filesystem_load_file short_name 4096 32, Call.memory_alloc_module 150 8192,
           Call.memory_alloc SIZEOF_MODULE_ENTRY 12288, Call.init_hook 8192 0 ERR_SUCCESS,
           Call.memory_free 4096]
    ∧ region_bytes (module_load env_header_only Kernel.initial short_name).2.2.mem 8192 150
        = List.replicate 150 0
    ∧ (module_load env_header_only Kernel.initial short_name).2.2.module_count = 1 := by
  decide


/-! ## The rollback of `module_load` -/

theorem mem_live_step_of_module (live : List (Issuer × Nat)) (c : Call) (p : Nat)
    (h : (Issuer.module_allocator, p) ∈ live)
    (hc : ∀ n, c ≠ Call.memory_free_module p n) :
    (Issuer.module_allocator, p) ∈ live_step live c := by
  cases c with
  | filesystem_load_file f q n =>
    by_cases hq : q = 0
    · simp [live_step, hq, h]
    · simp [live_step, hq, h]
  | memory_alloc_module n q =>
    by_cases hq : q = 0
    · simp [live_step, hq, h]
    · simp [live_step, hq, h]
  | memory_alloc n q =>
    by_cases hq : q = 0
    · simp [live_step, hq, h]
    · simp [live_step, hq, h]
  | memory_free q =>
    simp only [live_step]
    exact (List.mem_erase_of_ne (by simp)).2 h
  | memory_free_module q n =>
    have hq : q ≠ p := by
      intro hqp
      exact hc n (by rw [hqp])
    simp only [live_step]
    exact (List.mem_erase_of_ne (by simp [Ne.symm hq])).2 h
  | init_hook e q r => simpa [live_step] using h
  | exit_hook e r => simpa [live_step] using h
  | module_function e i q r => simpa [live_step] using h

/-- Every load that fails after the region has been allocated leaves the
region among the blocks handed out by the module allocator: both rollback
branches pass it to `memory_free` and none calls `memory_free_module`. -/
theorem module_load_rollback_keeps_region (env : Env) (s : Kernel) (filename : CStr)
    (hfind : module_find s.module_list filename = none)
    (hbuf : load_buf env filename ≠ 0)
    (hmagic : (load_header env s filename).magic = MODULE_MAGIC)
    (hbase : load_base env s filename ≠ 0)
    (hfail : load_entry env = 0 ∨ load_init_result env s filename ≠ ERR_SUCCESS) :
    (module_load env s filename).1 ≠ ERR_SUCCESS
    ∧ Call.memory_free (load_base env s filename) ∈ (module_load env s filename).2.2.calls
    ∧ (∀ n, Call.memory_free_module (load_base env s filename) n
        ∉ calls_since (module_load env s filename).2.2 s.calls.length)
    ∧ (Issuer.module_allocator, load_base env s filename)
        ∈ live_blocks (module_load env s filename).2.2.calls := by
  have hstart : (Issuer.module_allocator, load_base env s filename)
      ∈ live_step (live_step (live_blocks s.calls)
          (Call.filesystem_load_file filename (load_buf env filename)
            (load_file env filename).length))
          (Call.memory_alloc_module (load_size env s filename) (load_base env s filename)) := by
    simp [live_step, hbase]
  by_cases hentry : load_entry env = 0
  · obtain ⟨h1, -, -, -, h5⟩ :=
      module_load_no_record env s filename hfind hbuf hmagic hbase hentry
    refine ⟨by rw [h1]; decide, by rw [h5]; simp, ?_, ?_⟩
    · intro n
      simp [calls_since, h5]
    · rw [h5, live_blocks_append]
      simp only [List.foldl_cons, List.foldl_nil]
      refine mem_live_step_of_module _ _ _ (mem_live_step_of_module _ _ _
        (mem_live_step_of_module _ _ _ hstart ?_) ?_) ?_ <;> intro n <;> simp
  · have hinit : load_init_result env s filename ≠ ERR_SUCCESS := by
      rcases hfail with h | h
      · exact absurd h hentry
      · exact h
    obtain ⟨h1, -, -, -, h5⟩ :=
      module_load_init_failed env s filename hfind hbuf hmagic hbase hentry hinit
    refine ⟨by rw [h1]; exact hinit, by rw [h5]; simp, ?_, ?_⟩
    · intro n
      simp [calls_since, h5]
    · rw [h5, live_blocks_append]
      simp only [List.foldl_cons, List.foldl_nil]
      refine mem_live_step_of_module _ _ _ (mem_live_step_of_module _ _ _
        (mem_live_step_of_module _ _ _ (mem_live_step_of_module _ _ _
          (mem_live_step_of_module _ _ _ hstart ?_) ?_) ?_) ?_) ?_ <;> intro n <;> simp

/-- C18 (failing input): a load whose `init` hook fails, and a load whose
record allocation fails, both return with the region still handed out by the
module allocator: the rollback passes the region to `memory_free`, never to
`memory_free_module`, and when `init` fails it releases the region before the
record. The unload of a loaded module gives its region back through
`memory_free_module` and leaves nothing handed out. -/
theorem rollback_leaves_region :
    (module_load env_init_busy Kernel.initial short_name).1 = ERR_BUSY
    ∧ (module_load env_init_busy Kernel.initial short_name).2.2.calls
        = [Call.filesystem_load_file short_name 4096 40, Call.memory_alloc_module 8 8448,
           Call.memory_alloc SIZEOF_MODULE_ENTRY 12544, Call.init_hook 8448 0 ERR_BUSY,
           Call.memory_free 8448, Call.memory_free 12544, Call.memory_free 4096]
    ∧ live_blocks (module_load env_init_busy Kernel.initial short_name).2.2.calls
        = [(Issuer.module_allocator, 8448)]
    ∧ (module_load env_no_record Kernel.initial short_name).1 = ERR_NO_MEMORY
    ∧ (module_load env_no_record Kernel.initial short_name).2.2.calls
        = [Call.filesystem_load_file short_name 4096 40, Call.memory_alloc_module 8 8448,
           Call.memory_alloc SIZEOF_MODULE_ENTRY 0, Call.memory_free 8448,
           Call.memory_free 4096]
    ∧ live_blocks (module_load env_no_record Kernel.initial short_name).2.2.calls
        = [(Issuer.module_allocator, 8448)]
    ∧ calls_since (module_unload env_a (module_load env_a Kernel.initial short_name).2.2
          short_name).2 (module_load env_a Kernel.initial short_name).2.2.calls.length
        = [Call.memory_free_module 8192 8, Call.memory_free 12288]
    ∧ live_blocks (module_unload env_a (module_load env_a Kernel.initial short_name).2.2
          short_name).2.calls = [] := by
  decide

/-! ## Records are never rewritten -/

theorem unlink_sublist (l : List ModuleEntry) (name : CStr) : (unlink l name).Sublist l := by
  induction l with
  | nil => simp [unlink]
  | cons curr next ih =>
    unfold unlink
    by_cases hn : curr.name = name
    · simp only [hn, if_true]
      exact List.sublist_cons_self _ _
    · simp only [hn, if_false]
      exact List.Sublist.cons₂ _ ih

/-- The records `module_unload` leaves are records of the list before the
call, unchanged and in the same order. -/
theorem module_unload_sublist (env : Env) (s : Kernel) (name : CStr) :
    (module_unload env s name).2.module_list.Sublist s.module_list := by
  cases hfind : module_find s.module_list name with
  | none =>
    rw [(module_unload_not_found env s name hfind).2.1]
  | some curr =>
    by_cases hcore : curr.info.type = MODULE_TYPE_CORE
    · rw [(module_unload_permission env s name curr hfind hcore).2.1]
    cases hdep : module_check_dependencies s.module_list curr with
    | true =>
      rw [(module_unload_busy_branch env s name curr hfind hcore hdep).2.1]
    | false =>
      rw [(module_unload_success env s name curr hfind hcore hdep).2.1]
      exact unlink_sublist _ _

/-- The list `module_load` leaves is the list before the call, possibly with
one new record in front: registered records are never rewritten. -/
theorem module_load_suffix (env : Env) (s : Kernel) (filename : CStr) :
    (module_load env s filename).2.2.module_list = s.module_list
    ∨ (module_load env s filename).2.2.module_list
        = load_record env s filename :: s.module_list := by
  by_cases h : (module_load env s filename).1 = ERR_SUCCESS
  · obtain ⟨hfind, hbuf, hmagic, hbase, hentry, hinit⟩ :=
      module_load_success_inv env s filename h
    exact Or.inr (module_load_success env s filename hfind hbuf hmagic hbase hentry hinit).2.2.1
  · exact Or.inl (module_load_failure_frame env s filename h).1

/-- Loading a file name of at most 31 characters keeps the names of the
registry pairwise distinct. -/
theorem module_load_nodup_short_name (env : Env) (s : Kernel) (filename : CStr)
    (hlen : filename.length ≤ 31)
    (hnodup : (s.module_list.map (fun e => e.name)).Nodup) :
    ((module_load env s filename).2.2.module_list.map (fun e => e.name)).Nodup := by
  by_cases h : (module_load env s filename).1 = ERR_SUCCESS
  · obtain ⟨hfind, hbuf, hmagic, hbase, hentry, hinit⟩ :=
      module_load_success_inv env s filename h
    rw [(module_load_success env s filename hfind hbuf hmagic hbase hentry hinit).2.2.1]
    simp only [List.map_cons, List.nodup_cons]
    refine ⟨?_, hnodup⟩
    intro hmem
    obtain ⟨e, he, hname⟩ := List.mem_map.1 hmem
    have hne := (module_find_none_iff _ _).1 hfind e he
    apply hne
    rw [hname]
    simp [load_record, List.take_of_length_le hlen]
  · rw [(module_load_failure_frame env s filename h).1]
    exact hnodup

/-- Unloading keeps the names of the registry pairwise distinct. -/
theorem module_unload_nodup (env : Env) (s : Kernel) (name : CStr)
    (hnodup : (s.module_list.map (fun e => e.name)).Nodup) :
    ((module_unload env s name).2.module_list.map (fun e => e.name)).Nodup :=
  List.Nodup.sublist ((module_unload_sublist env s name).map _) hnodup


/-! ## The scenario and the order of the errors -/

/-- C16: from an empty registry, the load of `core_memory` with correct magic,
`text_size = 100`, `data_size = 50`, `export_offset = 150`, successful
allocations, a succeeding `init` hook and kind Core returns `ERR_SUCCESS` and
leaves one record, of status `MODULE_STATUS_ACTIVE`, size 150 and export table
at `base + 150`, with `module_count = 1`; a second load of the name returns
`ERR_EXISTS` and an unload of it `ERR_PERMISSION`, both with the list and
`module_count = 1` unchanged. -/
theorem scenario_core_memory (env env2 env3 : Env) (s : Kernel)
    (hlist : s.module_list = [])
    (hcount : s.module_count = 0)
    (hbuf : load_buf env core_memory ≠ 0)
    (hmagic : (load_header env s core_memory).magic = MODULE_MAGIC)
    (htext : (load_header env s core_memory).text_size = 100)
    (hdata : (load_header env s core_memory).data_size = 50)
    (hoff : (load_header env s core_memory).export_offset = 150)
    (hbase : load_base env s core_memory ≠ 0)
    (hentry : load_entry env ≠ 0)
    (hinit : load_init_result env s core_memory = ERR_SUCCESS)
    (hkind : (env.exports_at (load_exports env s core_memory)).info.type = MODULE_TYPE_CORE) :
    (module_load env s core_memory).1 = ERR_SUCCESS
    ∧ (module_load env s core_memory).2.2.module_count = 1
    ∧ (module_load env s core_memory).2.2.module_list = [load_record env s core_memory]
    ∧ (load_record env s core_memory).status = MODULE_STATUS_ACTIVE
    ∧ (load_record env s core_memory).size = 150
    ∧ (load_record env s core_memory).exports = (load_record env s core_memory).base_address + 150
    ∧ (module_load env2 (module_load env s core_memory).2.2 core_memory).1 = ERR_EXISTS
    ∧ (module_load env2 (module_load env s core_memory).2.2 core_memory).2.2.module_count = 1
    ∧ (module_load env2 (module_load env s core_memory).2.2 core_memory).2.2.module_list
        = [load_record env s core_memory]
    ∧ (module_unload env3 (module_load env2 (module_load env s core_memory).2.2
        core_memory).2.2 core_memory).1 = ERR_PERMISSION
    ∧ (module_unload env3 (module_load env2 (module_load env s core_memory).2.2
        core_memory).2.2 core_memory).2.module_count = 1
    ∧ (module_unload env3 (module_load env2 (module_load env s core_memory).2.2
        core_memory).2.2 core_memory).2.module_list = [load_record env s core_memory] := by
  have hfind : module_find s.module_list core_memory = none := by
    rw [hlist]
    rfl
  obtain ⟨a1, -, a3, a4, -⟩ :=
    module_load_success env s core_memory hfind hbuf hmagic hbase hentry hinit
  rw [hlist] at a3
  rw [hcount] at a4
  have a4 : (module_load env s core_memory).2.2.module_count = 1 := by
    rw [a4]
    decide
  have hname : (load_record env s core_memory).name = core_memory := by
    simp only [load_record]
    decide
  have hf1 : module_find (module_load env s core_memory).2.2.module_list core_memory
      = some (load_record env s core_memory) := by
    rw [a3]
    simp [module_find, hname]
  obtain ⟨b1, -, b3, b4, -⟩ := module_load_exists env2 _ core_memory _ hf1
  have hf2 : module_find (module_load env2 (module_load env s core_memory).2.2
      core_memory).2.2.module_list core_memory = some (load_record env s core_memory) := by
    rw [b3]
    exact hf1
  have hk : (load_record env s core_memory).info.type = MODULE_TYPE_CORE := hkind
  obtain ⟨c1, c2, c3, -⟩ := module_unload_permission env3 _ core_memory _ hf2 hk
  refine ⟨a1, a4, a3, rfl, ?_, ?_, b1, ?_, ?_, c1, ?_, ?_⟩
  · simp only [load_record, load_size, htext, hdata]
    decide
  · simp only [load_record, load_exports, hoff]
  · rw [b4, a4]
  · rw [b3, a3]
  · rw [c3, b4, a4]
  · rw [c2, b3, a3]

set_option maxRecDepth 100000 in
/-- Witness of C16: the scenario on the initial state, with a 182-byte image
served at 4096, the region at 8192 and the record at 12288. -/
theorem scenario_core_memory_witness :
    (load_header env_scenario Kernel.initial core_memory).text_size = 100
    ∧ (load_header env_scenario Kernel.initial core_memory).data_size = 50
    ∧ (load_header env_scenario Kernel.initial core_memory).export_offset = 150
    ∧ (module_load env_scenario Kernel.initial core_memory).1 = ERR_SUCCESS
    ∧ (module_load env_scenario Kernel.initial core_memory).2.2.module_count = 1
    ∧ (module_load env_b (module_load env_scenario Kernel.initial core_memory).2.2
        core_memory).1 = ERR_EXISTS
    ∧ (module_unload env_a (module_load env_b (module_load env_scenario Kernel.initial
        core_memory).2.2 core_memory).2.2 core_memory).1 = ERR_PERMISSION
    ∧ (module_unload env_a (module_load env_b (module_load env_scenario Kernel.initial
        core_memory).2.2 core_memory).2.2 core_memory).2.module_count = 1 :=
  have h := scenario_core_memory env_scenario env_b env_a Kernel.initial rfl rfl
    (by decide) (by decide) (by decide) (by decide) (by decide) (by decide) (by decide)
    (by decide) (by decide)
  ⟨by decide, by decide, by decide, h.1, h.2.1, h.2.2.2.2.2.2.1, h.2.2.2.2.2.2.2.2.2.1,
    h.2.2.2.2.2.2.2.2.2.2.1⟩

/-- C20: `module_load` returns the error of the first step that fails, in the
order duplicate check, storage read, magic check, region allocation, (record
allocation,) `init` hook, and makes no call of a later step: `ERR_EXISTS`
without any collaborator call when the name is registered; otherwise
`ERR_NOT_FOUND` after the storage read alone when storage has no file;
otherwise `ERR_INVALID_MODULE` without an allocation when the magic is wrong;
otherwise `ERR_NO_MEMORY` without a record allocation or `init` call when no
region is granted; otherwise, when the record is granted and the `init` hook is
called, its result if that is not `ERR_SUCCESS`. In each case `module_list`
and `module_count` are as before. -/
theorem module_load_first_error (env : Env) (s : Kernel) (filename : CStr) :
    (∀ e, module_find s.module_list filename = some e →
      (module_load env s filename).1 = ERR_EXISTS
      ∧ (module_load env s filename).2.2.calls = s.calls
      ∧ (module_load env s filename).2.2.module_list = s.module_list
      ∧ (module_load env s filename).2.2.module_count = s.module_count)
    ∧ (module_find s.module_list filename = none → load_buf env filename = 0 →
      (module_load env s filename).1 = ERR_NOT_FOUND
      ∧ (module_load env s filename).2.2.calls = s.calls ++
          [Call.filesystem_load_file filename 0 (load_file env filename).length]
      ∧ (module_load env s filename).2.2.module_list = s.module_list
      ∧ (module_load env s filename).2.2.module_count = s.module_count)
    ∧ (module_find s.module_list filename = none → load_buf env filename ≠ 0 →
      (load_header env s filename).magic ≠ MODULE_MAGIC →
      (module_load env s filename).1 = ERR_INVALID_MODULE
      ∧ (module_load env s filename).2.2.calls = s.calls ++
          [Call.filesystem_load_file filename (load_buf env filename)
              (load_file env filename).length,
           Call.memory_free (load_buf env filename)]
      ∧ (module_load env s filename).2.2.module_list = s.module_list
      ∧ (module_load env s filename).2.2.module_count = s.module_count)
    ∧ (module_find s.module_list filename = none → load_buf env filename ≠ 0 →
      (load_header env s filename).magic = MODULE_MAGIC → load_base env s filename = 0 →
      (module_load env s filename).1 = ERR_NO_MEMORY
      ∧ (module_load env s filename).2.2.calls = s.calls ++
          [Call.filesystem_load_file filename (load_buf env filename)
              (load_file env filename).length,
           Call.memory_alloc_module (load_size env s filename) 0,
           Call.memory_free (load_buf env filename)]
      ∧ (module_load env s filename).2.2.module_list = s.module_list
      ∧ (module_load env s filename).2.2.module_count = s.module_count)
    ∧ (module_find s.module_list filename = none → load_buf env filename ≠ 0 →
      (load_header env s filename).magic = MODULE_MAGIC → load_base env s filename ≠ 0 →
      load_entry env ≠ 0 → load_init_result env s filename ≠ ERR_SUCCESS →
      (module_load env s filename).1 = load_init_result env s filename
      ∧ (module_load env s filename).2.2.module_list = s.module_list
      ∧ (module_load env s filename).2.2.module_count = s.module_count) := by
  refine ⟨?_, ?_, ?_, ?_, ?_⟩
  · intro e hfind
    obtain ⟨h1, -, h3, h4, h5⟩ := module_load_exists env s filename e hfind
    exact ⟨h1, h5, h3, h4⟩
  · intro hfind hbuf
    obtain ⟨h1, -, h3, h4, h5⟩ := module_load_no_file env s filename hfind hbuf
    exact ⟨h1, h5, h3, h4⟩
  · intro hfind hbuf hmagic
    obtain ⟨h1, -, h3, h4, h5⟩ := module_load_invalid env s filename hfind hbuf hmagic
    exact ⟨h1, h5, h3, h4⟩
  · intro hfind hbuf hmagic hbase
    obtain ⟨h1, -, h3, h4, h5⟩ := module_load_no_region env s filename hfind hbuf hmagic hbase
    exact ⟨h1, h5, h3, h4⟩
  · intro hfind hbuf hmagic hbase hentry hinit
    obtain ⟨h1, -, h3, h4, -⟩ :=
      module_load_init_failed env s filename hfind hbuf hmagic hbase hentry hinit
    exact ⟨h1, h3, h4⟩

/-- Witness of C20: one load for each of the five failing steps. -/
theorem module_load_first_error_witness :
    (module_load env_a (registry_of [util_entry]) "util".toList).1 = ERR_EXISTS
    ∧ (module_load env_no_file (registry_of [util_entry]) short_name).1 = ERR_NOT_FOUND
    ∧ (module_load env_bad_magic (registry_of [util_entry]) short_name).1 = ERR_INVALID_MODULE
    ∧ (module_load env_no_region (registry_of [util_entry]) short_name).1 = ERR_NO_MEMORY
    ∧ (module_load env_init_busy (registry_of [util_entry]) short_name).1 = ERR_BUSY :=
  ⟨((module_load_first_error env_a (registry_of [util_entry]) "util".toList).1
      util_entry rfl).1,
   ((module_load_first_error env_no_file (registry_of [util_entry]) short_name).2.1
      rfl (by decide)).1,
   ((module_load_first_error env_bad_magic (registry_of [util_entry]) short_name).2.2.1
      rfl (by decide) (by decide)).1,
   ((module_load_first_error env_no_region (registry_of [util_entry]) short_name).2.2.2.1
      rfl (by decide) (by decide) (by decide)).1,
   ((module_load_first_error env_init_busy (registry_of [util_entry]) short_name).2.2.2.2
      rfl (by decide) (by decide) (by decide) (by decide) (by decide)).1⟩

/-! ## Invariants of the reachable states -/

/-- Every record of a reachable registry has no dependencies and is active,
and `module_count` is the length of the list modulo 2^32. -/
theorem reachable_invariant (s : Kernel) (h : Reachable s) :
    (∀ e ∈ s.module_list, e.dep_count = 0 ∧ e.status = MODULE_STATUS_ACTIVE)
    ∧ s.module_count = s.module_list.length % U32 := by
  induction h with
  | initial =>
    constructor
    · intro e he
      simp [Kernel.initial] at he
    · decide
  | load env s filename _ ih =>
    by_cases hres : (module_load env s filename).1 = ERR_SUCCESS
    · obtain ⟨hfind, hbuf, hmagic, hbase, hentry, hinit⟩ :=
        module_load_success_inv env s filename hres
      obtain ⟨-, -, hl, hc, -⟩ :=
        module_load_success env s filename hfind hbuf hmagic hbase hentry hinit
      rw [hl, hc, ih.2]
      constructor
      · intro e he
        rcases List.mem_cons.1 he with h1 | h1
        · rw [h1]
          exact ⟨rfl, rfl⟩
        · exact ih.1 e h1
      · simp [Nat.add_mod]
    · obtain ⟨hl, hc⟩ := module_load_failure_frame env s filename hres
      rw [hl, hc]
      exact ih
  | unload env s name _ ih =>
    constructor
    · intro e he
      exact ih.1 e ((module_unload_sublist env s name).subset he)
    · by_cases hres : (module_unload env s name).1 = ERR_SUCCESS
      · obtain ⟨curr, hfind, hcore, hdep⟩ := module_unload_success_inv env s name hres
        obtain ⟨-, hl, hc, -⟩ := module_unload_success env s name curr hfind hcore hdep
        obtain ⟨before, after, hsplit, -, hun⟩ := unlink_split _ _ _ hfind
        rw [hl, hc, ih.2, hun, hsplit]
        simp only [List.length_append, List.length_cons]
        have hU : U32 = 4294967296 := rfl
        rw [hU]
        omega
      · cases hfind : module_find s.module_list name with
        | none =>
          obtain ⟨-, hl, hc, -⟩ := module_unload_not_found env s name hfind
          rw [hl, hc]
          exact ih.2
        | some curr =>
          by_cases hcore : curr.info.type = MODULE_TYPE_CORE
          · obtain ⟨-, hl, hc, -⟩ := module_unload_permission env s name curr hfind hcore
            rw [hl, hc]
            exact ih.2
          cases hdep : module_check_dependencies s.module_list curr with
          | true =>
            obtain ⟨-, hl, hc, -⟩ := module_unload_busy_branch env s name curr hfind hcore hdep
            rw [hl, hc]
            exact ih.2
          | false =>
            exact absurd (module_unload_success env s name curr hfind hcore hdep).1 hres

/-- An unload that does not return `ERR_SUCCESS` leaves the registry as it
was. -/
theorem module_unload_failure_frame (env : Env) (s : Kernel) (name : CStr)
    (h : (module_unload env s name).1 ≠ ERR_SUCCESS) :
    (module_unload env s name).2.module_list = s.module_list
    ∧ (module_unload env s name).2.module_count = s.module_count := by
  cases hfind : module_find s.module_list name with
  | none =>
    obtain ⟨-, hl, hc, -⟩ := module_unload_not_found env s name hfind
    exact ⟨hl, hc⟩
  | some curr =>
    by_cases hcore : curr.info.type = MODULE_TYPE_CORE
    · obtain ⟨-, hl, hc, -⟩ := module_unload_permission env s name curr hfind hcore
      exact ⟨hl, hc⟩
    cases hdep : module_check_dependencies s.module_list curr with
    | true =>
      obtain ⟨-, hl, hc, -⟩ := module_unload_busy_branch env s name curr hfind hcore hdep
      exact ⟨hl, hc⟩
    | false =>
      exact absurd (module_unload_success env s name curr hfind hcore hdep).1 h

/-- When no record of the list has a dependency, the dependency check
answers false. -/
theorem module_check_dependencies_no_edges (l : List ModuleEntry) (mod : ModuleEntry)
    (h : ∀ e ∈ l, e.dep_count = 0) : module_check_dependencies l mod = false := by
  cases hc : module_check_dependencies l mod with
  | false => rfl
  | true =>
    obtain ⟨d, hd, -, i, hi, -⟩ := (module_check_dependencies_iff l mod).1 hc
    rw [h d hd] at hi
    exact absurd hi (Nat.not_lt_zero i)

theorem health_loop_id (l : List ModuleEntry) (s : Kernel) : health_loop l s = s := by
  induction l with
  | nil => rfl
  | cons curr next ih => exact ih

/-! ## Claims on the dependency tracker -/

/-- C21: `module_check_dependencies` answers true exactly when some record of
the list at an address other than that of `mod` holds the address of `mod`
among its first `dep_count` dependencies; in particular the edges of `mod`
itself (of records at its own address) do not count, and only records of the
list are looked at. -/
theorem module_check_dependencies_spec (l : List ModuleEntry) (mod : ModuleEntry) :
    (module_check_dependencies l mod = true
      ↔ ∃ d ∈ l, d.self ≠ mod.self ∧ ∃ i, i < d.dep_count ∧ d.dependencies i = mod.self)
    ∧ ((∀ d ∈ l, d.self = mod.self) → module_check_dependencies l mod = false) := by
  refine ⟨module_check_dependencies_iff l mod, ?_⟩
  intro hself
  cases hc : module_check_dependencies l mod with
  | false => rfl
  | true =>
    obtain ⟨d, hd, hne, -⟩ := (module_check_dependencies_iff l mod).1 hc
    exact absurd (hself d hd) hne

/-- Witness of C21: a module whose only edge points to itself has no
dependents; a module another record points to has one. -/
theorem module_check_dependencies_spec_witness :
    module_check_dependencies [user_entry 12800] (user_entry 12800) = false
    ∧ module_check_dependencies [user_entry 12544, util_entry] util_entry = true
    ∧ module_check_dependencies [util_entry] util_entry = false :=
  ⟨(module_check_dependencies_spec [user_entry 12800] (user_entry 12800)).2
      (by
        intro d hd
        rw [List.mem_singleton.1 hd]),
   (module_check_dependencies_spec [user_entry 12544, util_entry] util_entry).1.2
      ⟨user_entry 12544, by simp, by decide, 0, by decide, rfl⟩,
   by decide⟩

/-- C22: in every reachable registry state every registered record has
`dep_count = 0`, `module_check_dependencies` answers false for every record,
and `module_unload` does not return `ERR_BUSY`, whatever the name and the
collaborators. -/
theorem reachable_no_dependencies (s : Kernel) (h : Reachable s) :
    (∀ e ∈ s.module_list, e.dep_count = 0)
    ∧ (∀ mod, module_check_dependencies s.module_list mod = false)
    ∧ (∀ env name, (module_unload env s name).1 ≠ ERR_BUSY) := by
  have hdep : ∀ e ∈ s.module_list, e.dep_count = 0 :=
    fun e he => ((reachable_invariant s h).1 e he).1
  refine ⟨hdep, fun mod => module_check_dependencies_no_edges _ mod hdep, ?_⟩
  intro env name
  cases hfind : module_find s.module_list name with
  | none =>
    rw [(module_unload_not_found env s name hfind).1]
    decide
  | some curr =>
    by_cases hcore : curr.info.type = MODULE_TYPE_CORE
    · rw [(module_unload_permission env s name curr hfind hcore).1]
      decide
    · rw [(module_unload_success env s name curr hfind hcore
        (module_check_dependencies_no_edges _ curr hdep)).1]
      decide

/-- Witness of C22: the registry after three loads. -/
theorem reachable_no_dependencies_witness :
    Reachable (load_run 3)
    ∧ (load_run 3).module_list.length = 3
    ∧ (∀ e ∈ (load_run 3).module_list, e.dep_count = 0)
    ∧ (module_unload env_a (load_run 3) (nth_name 1)).1 ≠ ERR_BUSY :=
  have h := reachable_no_dependencies (load_run 3) (load_run_reachable 3)
  ⟨load_run_reachable 3, by decide, h.1, h.2.2 env_a (nth_name 1)⟩

/-- C23: if every dependency edge of every registered record names a
registered record, the same holds after any `module_load` and after any
`module_unload`, successful or not: an unload that succeeds removes a record
no other record points to, and a load adds a record without edges. -/
theorem edges_closed_preserved (s : Kernel) (h : edges_closed s.module_list) :
    (∀ env filename, edges_closed (module_load env s filename).2.2.module_list)
    ∧ (∀ env name, edges_closed (module_unload env s name).2.module_list) := by
  constructor
  · intro env filename
    rcases module_load_suffix env s filename with hl | hl
    · rw [hl]
      exact h
    · rw [hl]
      intro d hd i hi
      rcases List.mem_cons.1 hd with hd1 | hd1
      · rw [hd1] at hi
        exact absurd hi (Nat.not_lt_zero i)
      · obtain ⟨e, he, hes⟩ := h d hd1 i hi
        exact ⟨e, List.mem_cons_of_mem _ he, hes⟩
  · intro env name
    by_cases hres : (module_unload env s name).1 = ERR_SUCCESS
    · obtain ⟨curr, hfind, hcore, hdep⟩ := module_unload_success_inv env s name hres
      obtain ⟨-, hl, -, -⟩ := module_unload_success env s name curr hfind hcore hdep
      obtain ⟨before, after, hsplit, -, hun⟩ := unlink_split _ _ _ hfind
      rw [hl, hun]
      intro d hd i hi
      have hd0 : d ∈ s.module_list := by
        rw [hsplit]
        rcases List.mem_append.1 hd with h1 | h1
        · exact List.mem_append_left _ h1
        · exact List.mem_append_right _ (List.mem_cons_of_mem _ h1)
      obtain ⟨e, he, hes⟩ := h d hd0 i hi
      rw [hsplit] at he
      rcases List.mem_append.1 he with h1 | h1
      · exact ⟨e, List.mem_append_left _ h1, hes⟩
      · rcases List.mem_cons.1 h1 with h2 | h2
        · by_cases hself : d.self = curr.self
          · refine ⟨d, hd, ?_⟩
            rw [hself, ← h2]
            exact hes
          · exfalso
            have hchk : module_check_dependencies s.module_list curr = true :=
              (module_check_dependencies_iff _ _).2
                ⟨d, hd0, hself, i, hi, by rw [← hes, h2]⟩
            rw [hdep] at hchk
            exact absurd hchk (by decide)
        · exact ⟨e, List.mem_append_right _ h2, hes⟩
    · rw [(module_unload_failure_frame env s name hres).1]
      exact h

theorem edges_closed_demo :
    edges_closed (registry_of [user_entry 12544, util_entry]).module_list := by
  intro d hd i hi
  simp only [registry_of, List.mem_cons, List.mem_singleton, List.not_mem_nil, or_false] at hd
  rcases hd with hd | hd
  · rw [hd]
    exact ⟨util_entry, by simp [registry_of], rfl⟩
  · rw [hd] at hi
    exact absurd hi (Nat.not_lt_zero i)

/-- Witness of C23: a registry where `user` depends on `util`; after `user`
is unloaded the remaining registry has no edge to a missing record, and the
unload of `util` before that is refused. -/
theorem edges_closed_preserved_witness :
    edges_closed (registry_of [user_entry 12544, util_entry]).module_list
    ∧ (module_unload env_a (registry_of [user_entry 12544, util_entry]) "user".toList).1
        = ERR_SUCCESS
    ∧ (module_unload env_a (registry_of [user_entry 12544, util_entry]) "util".toList).1
        = ERR_BUSY
    ∧ edges_closed (module_unload env_a (registry_of [user_entry 12544, util_entry])
        "user".toList).2.module_list
    ∧ edges_closed (module_load env_b (registry_of [user_entry 12544, util_entry])
        short_name).2.2.module_list :=
  have h := edges_closed_preserved (registry_of [user_entry 12544, util_entry])
    edges_closed_demo
  ⟨edges_closed_demo, by decide, by decide, h.2 env_a "user".toList, h.1 env_b short_name⟩

/-! ## Claims on status, listing order and count -/

/-- C24: in every reachable registry state every record of the list has
status `MODULE_STATUS_ACTIVE` (so none is Unloaded, Loading, Suspended or
Error), `module_check_health` leaves the state as it is, and `module_call`
never takes its not-active exit: the not-active diagnostic is not what it
prints. -/
theorem reachable_all_active (s : Kernel) (h : Reachable s) :
    (∀ e ∈ s.module_list, e.status = MODULE_STATUS_ACTIVE)
    ∧ module_check_health s = s
    ∧ (∀ name M, module_find s.module_list name = some M → M.status = MODULE_STATUS_ACTIVE)
    ∧ (∀ env name idx params,
        (module_call env s name idx params).2.console
          ≠ s.console ++ ["Module not active: %s\n"]) := by
  have hact : ∀ e ∈ s.module_list, e.status = MODULE_STATUS_ACTIVE :=
    fun e he => ((reachable_invariant s h).1 e he).2
  have hfindact : ∀ name M, module_find s.module_list name = some M →
      M.status = MODULE_STATUS_ACTIVE :=
    fun name M hf => hact M (module_find_name _ _ _ hf).2
  refine ⟨hact, health_loop_id _ _, hfindact, ?_⟩
  intro env name idx params
  cases hfind : module_find s.module_list name with
  | none =>
    simp [module_call, hfind, kprintf]
  | some M =>
    have hst := hfindact name M hfind
    by_cases hidx : 15 ≤ idx
    · rw [module_call_bad_index env s name M idx params hfind hst hidx]
      simp [kprintf]
    · have hlt : idx < 15 := by omega
      cases hslot : (env.exports_at M.exports).functions ⟨idx, hlt⟩ with
      | none =>
        rw [module_call_empty_slot env s name M idx params hfind hst hlt hslot]
        simp [kprintf]
      | some f =>
        rw [module_call_populated_slot env s name M idx params f hfind hst hlt hslot]
        simp [record]

/-- Witness of C24: the registry after three loads. -/
theorem reachable_all_active_witness :
    Reachable (load_run 3)
    ∧ (load_run 3).module_list.map (fun e => e.status)
        = List.replicate 3 MODULE_STATUS_ACTIVE
    ∧ (∀ e ∈ (load_run 3).module_list, e.status = MODULE_STATUS_ACTIVE) :=
  have h := reachable_all_active (load_run 3) (load_run_reachable 3)
  ⟨load_run_reachable 3, by decide, h.1⟩

theorem list_rows_eq_map (l : List ModuleEntry) : list_rows l = l.map list_row := by
  induction l with
  | nil => rfl
  | cons curr next ih => simp [list_rows, ih]

theorem unlink_tagged_map (tg : List (Nat × ModuleEntry)) (name : CStr) :
    (unlink_tagged tg name).map (fun p => p.2) = unlink (tg.map (fun p => p.2)) name := by
  induction tg with
  | nil => rfl
  | cons p rest ih =>
    by_cases hn : p.2.name = name
    · simp [unlink_tagged, unlink, hn]
    · simp [unlink_tagged, unlink, hn, ih]

theorem unlink_tagged_sublist (tg : List (Nat × ModuleEntry)) (name : CStr) :
    (unlink_tagged tg name).Sublist tg := by
  induction tg with
  | nil => simp [unlink_tagged]
  | cons p rest ih =>
    unfold unlink_tagged
    by_cases hn : p.2.name = name
    · simp only [hn, if_true]
      exact List.sublist_cons_self _ _
    · simp only [hn, if_false]
      exact List.Sublist.cons₂ _ ih

theorem step_tagged_ok (k : Nat) (st : Kernel × List (Nat × ModuleEntry)) (op : Op)
    (h : ledger_ok k st) : ledger_ok (k + 1) (step_tagged k st op) := by
  obtain ⟨h1, h2, h3⟩ := h
  cases op with
  | load env filename =>
    by_cases hres : (module_load env st.1 filename).1 = ERR_SUCCESS
    · obtain ⟨hfind, hbuf, hmagic, hbase, hentry, hinit⟩ :=
        module_load_success_inv env st.1 filename hres
      obtain ⟨-, -, hl, -, -⟩ :=
        module_load_success env st.1 filename hfind hbuf hmagic hbase hentry hinit
      refine ⟨?_, ?_, ?_⟩
      · simp only [step_tagged, hres, if_true, List.map_cons, hl, h1]
      · simp only [step_tagged, hres, if_true, List.map_cons, List.pairwise_cons]
        refine ⟨?_, h2⟩
        intro t ht
        obtain ⟨p, hp, hpt⟩ := List.mem_map.1 ht
        rw [← hpt]
        exact h3 p hp
      · intro p hp
        simp only [step_tagged, hres, if_true, List.mem_cons] at hp
        rcases hp with hp | hp
        · rw [hp]
          exact Nat.lt_succ_self k
        · exact Nat.lt_succ_of_lt (h3 p hp)
    · refine ⟨?_, ?_, ?_⟩
      · simp only [step_tagged, hres, if_false, h1]
        exact (module_load_failure_frame env st.1 filename hres).1.symm
      · simp only [step_tagged, hres, if_false]
        exact h2
      · intro p hp
        simp only [step_tagged, hres, if_false] at hp
        exact Nat.lt_succ_of_lt (h3 p hp)
  | unload env name =>
    by_cases hres : (module_unload env st.1 name).1 = ERR_SUCCESS
    · obtain ⟨curr, hfind, hcore, hdep⟩ := module_unload_success_inv env st.1 name hres
      obtain ⟨-, hl, -, -⟩ := module_unload_success env st.1 name curr hfind hcore hdep
      refine ⟨?_, ?_, ?_⟩
      · simp only [step_tagged, hres, if_true, hl]
        rw [unlink_tagged_map, h1]
      · simp only [step_tagged, hres, if_true]
        exact List.Pairwise.sublist ((unlink_tagged_sublist st.2 name).map _) h2
      · intro p hp
        simp only [step_tagged, hres, if_true] at hp
        exact Nat.lt_succ_of_lt (h3 p ((unlink_tagged_sublist st.2 name).subset hp))
    · refine ⟨?_, ?_, ?_⟩
      · simp only [step_tagged, hres, if_false, h1]
        exact (module_unload_failure_frame env st.1 name hres).1.symm
      · simp only [step_tagged, hres, if_false]
        exact h2
      · intro p hp
        simp only [step_tagged, hres, if_false] at hp
        exact Nat.lt_succ_of_lt (h3 p hp)

theorem run_tagged_ok (ops : List Op) (k : Nat) (st : Kernel × List (Nat × ModuleEntry))
    (h : ledger_ok k st) : ledger_ok (k + ops.length) (run_tagged k st ops) := by
  induction ops generalizing k st with
  | nil => exact h
  | cons op ops ih =>
    have := ih (k + 1) (step_tagged k st op) (step_tagged_ok k st op h)
    simp only [List.length_cons, run_tagged]
    rw [show k + (ops.length + 1) = k + 1 + ops.length by omega]
    exact this

theorem list_console_spec (l : List ModuleEntry) (s : Kernel) :
    (list_console l s).console
      = s.console ++ List.replicate l.length "%-20s %-10s v%-8s %s\n"
    ∧ (list_console l s).module_list = s.module_list
    ∧ (list_console l s).module_count = s.module_count
    ∧ (list_console l s).calls = s.calls := by
  induction l generalizing s with
  | nil => simp [list_console]
  | cons curr next ih =>
    obtain ⟨h1, h2, h3, h4⟩ := ih (kprintf s "%-20s %-10s v%-8s %s\n")
    simp only [list_console, h1, h2, h3, h4]
    simp [kprintf, List.replicate_succ]

theorem module_type_to_string_unknown (k : Nat) (hk : 6 < k) :
    module_type_to_string k = "UNKNOWN" := by
  have h0 : k ≠ 0 := by omega
  have h1 : k ≠ 1 := by omega
  have h2 : k ≠ 2 := by omega
  have h3 : k ≠ 3 := by omega
  have h4 : k ≠ 4 := by omega
  have h5 : k ≠ 5 := by omega
  have h6 : k ≠ 6 := by omega
  simp [module_type_to_string, h0, h1, h2, h3, h4, h5, h6]

/-- C25: `module_list_all` prints the heading with `module_count` and then,
for each record of `module_list` from the head on, one row with the name,
the kind as a string, the version and the tag `[ACTIVE]` or `[INACTIVE]` of
that record, and changes nothing but the console. After every sequence of
loads and unloads from the initial state the records carry strictly
decreasing load times along the list, so the rows come most recently loaded
first; a successful load puts the row of the new module before the rows
printed so far, and a successful unload removes the row of the first record
of that name and keeps the other rows in their order. -/
theorem module_list_all_order (ops : List Op) (s : Kernel)
    (row : ModuleEntry → CStr × String × CStr × String)
    (hrow : row = fun curr =>
      (curr.info.name, module_type_to_string curr.info.type, curr.info.version,
        if curr.status = MODULE_STATUS_ACTIVE then "[ACTIVE]" else "[INACTIVE]")) :
    (module_list_all s).1 = s.module_count
    ∧ (module_list_all s).2.1 = s.module_list.map row
    ∧ (module_list_all s).2.2.console
        = s.console ++ "\n=== Loaded Modules (%d) ===\n"
          :: List.replicate s.module_list.length "%-20s %-10s v%-8s %s\n"
    ∧ (module_list_all s).2.2.module_list = s.module_list
    ∧ (module_list_all s).2.2.module_count = s.module_count
    ∧ (module_list_all s).2.2.calls = s.calls
    ∧ (List.range 7).map module_type_to_string
        = ["CORE", "MEMORY", "FS", "DEVICE", "NETWORK", "SECURITY", "UTILITY"]
    ∧ (∀ k, 6 < k → module_type_to_string k = "UNKNOWN")
    ∧ (run_tagged 0 (Kernel.initial, []) ops).2.map (fun p => p.2)
        = (run_tagged 0 (Kernel.initial, []) ops).1.module_list
    ∧ ((run_tagged 0 (Kernel.initial, []) ops).2.map (fun p => p.1)).Pairwise
        (fun a b => b < a)
    ∧ (module_list_all (run_tagged 0 (Kernel.initial, []) ops).1).2.1
        = (run_tagged 0 (Kernel.initial, []) ops).2.map (fun p => row p.2)
    ∧ (∀ env filename, (module_load env s filename).1 = ERR_SUCCESS →
        (module_list_all (module_load env s filename).2.2).2.1
          = ((env.exports_at (load_exports env s filename)).info.name,
              module_type_to_string (env.exports_at (load_exports env s filename)).info.type,
              (env.exports_at (load_exports env s filename)).info.version, "[ACTIVE]")
            :: (module_list_all s).2.1)
    ∧ (∀ env name, (module_unload env s name).1 = ERR_SUCCESS →
        ∃ before M after,
          s.module_list = before ++ M :: after
          ∧ M.name = name
          ∧ (∀ e ∈ before, e.name ≠ name)
          ∧ (module_list_all s).2.1 = before.map row ++ row M :: after.map row
          ∧ (module_list_all (module_unload env s name).2).2.1
              = before.map row ++ after.map row) := by
  have hrows : ∀ l : List ModuleEntry, list_rows l = l.map row := by
    intro l
    rw [list_rows_eq_map, hrow]
    rfl
  have hinit : ledger_ok 0 (Kernel.initial, []) := by
    refine ⟨rfl, ?_, ?_⟩
    · simp
    · intro p hp
      simp at hp
  obtain ⟨h1, h2, -⟩ := run_tagged_ok ops 0 _ hinit
  obtain ⟨c1, c2, c3, c4⟩ :=
    list_console_spec s.module_list (kprintf s "\n=== Loaded Modules (%d) ===\n")
  refine ⟨rfl, hrows _, ?_, c2, c3, c4, by decide, module_type_to_string_unknown, h1, h2,
    ?_, ?_, ?_⟩
  · simp only [module_list_all, c1]
    simp [kprintf]
  · simp only [module_list_all, hrows, ← h1, List.map_map]
    rfl
  · intro env filename hres
    obtain ⟨hfind, hbuf, hmagic, hbase, hentry, hinit⟩ :=
      module_load_success_inv env s filename hres
    obtain ⟨-, -, hl, -, -⟩ :=
      module_load_success env s filename hfind hbuf hmagic hbase hentry hinit
    simp only [module_list_all, hl, list_rows, list_row, load_record]
    simp
  · intro env name hres
    obtain ⟨curr, hfind, hcore, hdep⟩ := module_unload_success_inv env s name hres
    obtain ⟨-, hl, -, -⟩ := module_unload_success env s name curr hfind hcore hdep
    obtain ⟨before, after, hsplit, hbefore, hun⟩ := unlink_split _ _ _ hfind
    refine ⟨before, curr, after, hsplit, (module_find_name _ _ _ hfind).1, hbefore, ?_, ?_⟩
    · simp only [module_list_all, hrows]
      rw [hsplit]
      simp
    · simp only [module_list_all, hl, hun, hrows]
      simp

/-- Witness of C25: three loads at times 0, 1, 2 of modules `m00` (Core),
`m01` (Memory) and `m02` (Filesystem) and the unload of `m01` leave the load
times 2 and 0 in that order, and the listing prints the heading and the rows of
`m02` and `m00`, in that order; the row of a suspended module is tagged
`[INACTIVE]`. -/
theorem module_list_all_order_witness :
    (run_tagged 0 (Kernel.initial, []) listing_ops).2.map (fun p => p.1) = [2, 0]
    ∧ (module_list_all (run_tagged 0 (Kernel.initial, []) listing_ops).1).1 = 2
    ∧ (module_list_all (run_tagged 0 (Kernel.initial, []) listing_ops).1).2.1
        = [("m02".toList, "FS", "1.2".toList, "[ACTIVE]"),
           ("m00".toList, "CORE", "1.0".toList, "[ACTIVE]")]
    ∧ (module_list_all (run_tagged 0 (Kernel.initial, []) listing_ops).1).2.2.console
        = (run_tagged 0 (Kernel.initial, []) listing_ops).1.console
          ++ ["\n=== Loaded Modules (%d) ===\n", "%-20s %-10s v%-8s %s\n",
              "%-20s %-10s v%-8s %s\n"]
    ∧ (module_list_all (registry_of [suspended_entry, core_entry])).2.1
        = [("demo".toList, "UTILITY", "1.0".toList, "[INACTIVE]"),
           ("demo".toList, "CORE", "1.0".toList, "[ACTIVE]")]
    ∧ (module_list_all (module_load (listing_env 3)
          (run_tagged 0 (Kernel.initial, []) listing_ops).1 (nth_name 3)).2.2).2.1
        = ("m03".toList, "DEVICE", "1.3".toList, "[ACTIVE]")
          :: (module_list_all (run_tagged 0 (Kernel.initial, []) listing_ops).1).2.1 :=
  have h := module_list_all_order listing_ops
    (run_tagged 0 (Kernel.initial, []) listing_ops).1
    (fun curr =>
      (curr.info.name, module_type_to_string curr.info.type, curr.info.version,
        if curr.status = MODULE_STATUS_ACTIVE then "[ACTIVE]" else "[INACTIVE]")) rfl
  ⟨by decide, by decide, by decide, by decide, by decide,
    h.2.2.2.2.2.2.2.2.2.2.2.1 (listing_env 3) (nth_name 3) (by decide)⟩

/-- C26: in every reachable registry state `module_count` is the number of
records of the list modulo 2^32, hence equal to it while the list has fewer
than 2^32 records; it changes only with a successful load, which adds one
record and one to the count (modulo 2^32), or with a successful unload, which
removes one record and takes one from a count that is then at least one (so
it does not wrap below zero). -/
theorem module_count_tracks_list (s : Kernel) (h : Reachable s) :
    s.module_count = s.module_list.length % U32
    ∧ (s.module_list.length < U32 → s.module_count = s.module_list.length)
    ∧ (∀ env filename,
        ((module_load env s filename).1 = ERR_SUCCESS →
          (module_load env s filename).2.2.module_list.length = s.module_list.length + 1
          ∧ (module_load env s filename).2.2.module_count = (s.module_count + 1) % U32)
        ∧ ((module_load env s filename).1 ≠ ERR_SUCCESS →
          (module_load env s filename).2.2.module_list = s.module_list
          ∧ (module_load env s filename).2.2.module_count = s.module_count))
    ∧ (∀ env name,
        ((module_unload env s name).1 = ERR_SUCCESS →
          (module_unload env s name).2.module_list.length + 1 = s.module_list.length
          ∧ (s.module_list.length < U32 →
              1 ≤ s.module_count
              ∧ (module_unload env s name).2.module_count + 1 = s.module_count))
        ∧ ((module_unload env s name).1 ≠ ERR_SUCCESS →
          (module_unload env s name).2.module_list = s.module_list
          ∧ (module_unload env s name).2.module_count = s.module_count)) := by
  have hinv := (reachable_invariant s h).2
  have hU : U32 = 4294967296 := rfl
  refine ⟨hinv, ?_, ?_, ?_⟩
  · intro hsmall
    rw [hinv]
    exact Nat.mod_eq_of_lt hsmall
  · intro env filename
    constructor
    · intro hres
      obtain ⟨hfind, hbuf, hmagic, hbase, hentry, hinit⟩ :=
        module_load_success_inv env s filename hres
      obtain ⟨-, -, hl, hc, -⟩ :=
        module_load_success env s filename hfind hbuf hmagic hbase hentry hinit
      exact ⟨by rw [hl]; rfl, hc⟩
    · exact module_load_failure_frame env s filename
  · intro env name
    constructor
    · intro hres
      obtain ⟨curr, hfind, hcore, hdep⟩ := module_unload_success_inv env s name hres
      obtain ⟨-, hl, hc, -⟩ := module_unload_success env s name curr hfind hcore hdep
      obtain ⟨before, after, hsplit, -, hun⟩ := unlink_split _ _ _ hfind
      have hlen : (unlink s.module_list name).length + 1 = s.module_list.length := by
        rw [hun]
        conv_rhs => rw [hsplit]
        simp only [List.length_append, List.length_cons]
        omega
      refine ⟨by rw [hl]; exact hlen, ?_⟩
      intro hsmall
      have hcount : s.module_count = s.module_list.length := by
        rw [hinv]
        exact Nat.mod_eq_of_lt hsmall
      rw [hc, hcount, hU]
      rw [hU] at hsmall
      omega
    · exact module_unload_failure_frame env s name

/-- Witness of C26: the registry after three loads has count 3; a fourth load
makes it 4 and an unload 2. -/
theorem module_count_tracks_list_witness :
    Reachable (load_run 3)
    ∧ (load_run 3).module_count = 3
    ∧ (load_run 3).module_list.length = 3
    ∧ (module_load (nth_env 3) (load_run 3) (nth_name 3)).2.2.module_count = (3 + 1) % U32
    ∧ (module_unload env_a (load_run 3) (nth_name 1)).2.module_count + 1 = 3 :=
  have h := module_count_tracks_list (load_run 3) (load_run_reachable 3)
  have hc : (load_run 3).module_count = 3 := by decide
  ⟨load_run_reachable 3, hc, by decide,
    hc ▸ ((h.2.2.1 (nth_env 3) (nth_name 3)).1 (by decide)).2,
    hc ▸ (((h.2.2.2 env_a (nth_name 1)).1 (by decide)).2 (by decide)).2⟩

/-! ## The queue table of ipc.c -/

theorem occupied_le (l : List (Option IPCQueue)) : occupied l ≤ l.length := by
  induction l with
  | nil => simp [occupied]
  | cons x rest ih =>
    cases x with
    | none =>
      simp only [occupied, List.length_cons]
      omega
    | some q =>
      simp only [occupied, List.length_cons]
      omega

theorem occupied_replicate_none (n : Nat) :
    occupied (List.replicate n (none : Option IPCQueue)) = 0 := by
  induction n with
  | zero => rfl
  | succ k ih => simpa [List.replicate_succ, occupied] using ih

theorem insert_queue_length (l : List (Option IPCQueue)) (q : IPCQueue) :
    (insert_queue l q).length = l.length := by
  induction l with
  | nil => rfl
  | cons x rest ih =>
    cases x with
    | none => simp [insert_queue]
    | some y => simp [insert_queue, ih]

theorem insert_queue_occupied (l : List (Option IPCQueue)) (q : IPCQueue)
    (h : occupied l < l.length) : occupied (insert_queue l q) = occupied l + 1 := by
  induction l with
  | nil => simp [occupied] at h
  | cons x rest ih =>
    cases x with
    | none => simp [insert_queue, occupied]
    | some y =>
      simp only [occupied, List.length_cons] at h
      simp only [insert_queue, occupied]
      rw [ih (by omega)]

theorem clear_queue_length (l : List (Option IPCQueue)) (ptr : Nat) :
    (clear_queue l ptr).length = l.length := by
  induction l with
  | nil => rfl
  | cons x rest ih =>
    cases x with
    | none => simp [clear_queue, ih]
    | some y =>
      by_cases hy : y.self = ptr
      · simp [clear_queue, hy]
      · simp [clear_queue, hy, ih]

theorem clear_queue_occupied (l : List (Option IPCQueue)) (ptr : Nat)
    (h : ∃ q, some q ∈ l ∧ q.self = ptr) :
    occupied (clear_queue l ptr) + 1 = occupied l := by
  induction l with
  | nil =>
    obtain ⟨q, hq, -⟩ := h
    simp at hq
  | cons x rest ih =>
    cases x with
    | none =>
      obtain ⟨q, hq, hp⟩ := h
      simp only [List.mem_cons] at hq
      rcases hq with hq | hq
      · exact absurd hq (by simp)
      · simp only [clear_queue, occupied]
        exact ih ⟨q, hq, hp⟩
    | some y =>
      by_cases hy : y.self = ptr
      · simp [clear_queue, hy, occupied]
      · obtain ⟨q, hq, hp⟩ := h
        simp only [List.mem_cons] at hq
        rcases hq with hq | hq
        · have : q = y := Option.some.inj hq
          rw [this] at hp
          exact absurd hp hy
        · simp only [clear_queue, hy, if_false, occupied]
          have := ih ⟨q, hq, hp⟩
          omega

theorem ipc_queue_find_mem (l : List (Option IPCQueue)) (id : Nat) (q : IPCQueue)
    (h : ipc_queue_find l id = some q) : some q ∈ l ∧ q.id = id := by
  induction l with
  | nil => simp [ipc_queue_find] at h
  | cons x rest ih =>
    cases x with
    | none =>
      simp only [ipc_queue_find] at h
      exact ⟨List.mem_cons_of_mem _ (ih h).1, (ih h).2⟩
    | some y =>
      by_cases hy : y.id = id
      · simp only [ipc_queue_find, hy, if_true, Option.some.injEq] at h
        rw [← h]
        exact ⟨List.mem_cons_self _ _, hy⟩
      · simp only [ipc_queue_find, hy, if_false] at h
        exact ⟨List.mem_cons_of_mem _ (ih h).1, (ih h).2⟩

/-- In every state reachable through `ipc_system_init`, `ipc_queue_create` and
`ipc_queue_delete` the table has `MAX_IPC_QUEUES` slots and `ipc_queue_count`
is the number of non-empty slots, so at most `MAX_IPC_QUEUES`. -/
theorem ipc_queue_count_invariant (s : IpcState) (h : IpcReachable s) :
    s.ipc_queues.length = MAX_IPC_QUEUES
    ∧ s.ipc_queue_count = occupied s.ipc_queues
    ∧ s.ipc_queue_count ≤ MAX_IPC_QUEUES := by
  have hU : U32 = 4294967296 := rfl
  induction h with
  | init s =>
    refine ⟨List.length_replicate _ _, ?_, Nat.zero_le _⟩
    exact (occupied_replicate_none MAX_IPC_QUEUES).symm
  | create env s name max_messages _ ih =>
    obtain ⟨hlen, hcount, hle⟩ := ih
    by_cases hfull : s.ipc_queue_count ≥ MAX_IPC_QUEUES
    · simp only [ipc_queue_create, hfull, if_true]
      exact ⟨hlen, hcount, hle⟩
    by_cases hq : env.queue_alloc = 0
    · simp only [ipc_queue_create, hfull, if_false, hq, if_true]
      exact ⟨hlen, hcount, hle⟩
    by_cases hm : env.messages_alloc = 0
    · simp only [ipc_queue_create, hfull, if_false, hq, hm, if_true]
      exact ⟨hlen, hcount, hle⟩
    · simp only [ipc_queue_create, hfull, if_false, hq, hm]
      have hsmall : s.ipc_queue_count < 128 := Nat.lt_of_not_le hfull
      have hlt : occupied s.ipc_queues < s.ipc_queues.length := by
        rw [hlen, ← hcount]
        exact hsmall
      have hmod : (s.ipc_queue_count + 1) % U32 = s.ipc_queue_count + 1 := by
        apply Nat.mod_eq_of_lt
        rw [hU]
        omega
      refine ⟨?_, ?_, ?_⟩
      · rw [insert_queue_length]
        exact hlen
      · rw [insert_queue_occupied _ _ hlt, ← hcount]
        exact hmod
      · rw [hmod]
        exact hsmall
  | delete s id _ ih =>
    obtain ⟨hlen, hcount, hle⟩ := ih
    cases hfind : ipc_queue_find s.ipc_queues id with
    | none =>
      simp only [ipc_queue_delete, hfind]
      exact ⟨hlen, hcount, hle⟩
    | some q =>
      have hmem := (ipc_queue_find_mem _ _ _ hfind).1
      have hocc := clear_queue_occupied s.ipc_queues q.self ⟨q, hmem, rfl⟩
      have hle128 : s.ipc_queue_count ≤ 128 := hle
      have hmod : (s.ipc_queue_count + U32 - 1) % U32 = occupied (clear_queue s.ipc_queues q.self)
          := by
        rw [hU]
        omega
      by_cases hp : q.messages_ptr ≠ 0
      · have hp1 : (q.messages_ptr ≠ 0) = True := eq_true hp
        simp only [ipc_queue_delete, hfind, hp1, if_true]
        refine ⟨?_, hmod, ?_⟩
        · rw [clear_queue_length]
          exact hlen
        · rw [hmod]
          have : occupied (clear_queue s.ipc_queues q.self) ≤ 128 := by omega
          exact this
      · have hp0 : (q.messages_ptr ≠ 0) = False := eq_false hp
        simp only [ipc_queue_delete, hfind, hp0, if_false]
        refine ⟨?_, hmod, ?_⟩
        · rw [clear_queue_length]
          exact hlen
        · rw [hmod]
          have : occupied (clear_queue s.ipc_queues q.self) ≤ 128 := by omega
          exact this

/-! ## The count of a queue -/

theorem ipc_queue_find_store (l : List (Option IPCQueue)) (id : Nat) (q q1 : IPCQueue)
    (h : ipc_queue_find l id = some q) (hid : q1.id = id) :
    ipc_queue_find (store_queue l id q1) id = some q1 := by
  induction l with
  | nil => simp [ipc_queue_find] at h
  | cons x rest ih =>
    cases x with
    | none =>
      simp only [ipc_queue_find] at h
      simp only [store_queue, ipc_queue_find]
      exact ih h
    | some y =>
      by_cases hy : y.id = id
      · simp [store_queue, ipc_queue_find, hy, hid]
      · simp only [ipc_queue_find, hy, if_false] at h
        simp only [store_queue, hy, if_false, ipc_queue_find]
        exact ih h

/-- A successful `ipc_send` found the queue below its capacity and adds one
to its count. -/
theorem ipc_send_count (env : IpcEnv) (s : IpcState) (id data size timeout : Nat)
    (q : IPCQueue) (hfind : ipc_queue_find s.ipc_queues id = some q)
    (h : (ipc_send env s id data size timeout).1 = ERR_SUCCESS) :
    q.count < q.max_messages
    ∧ queue_count (ipc_send env s id data size timeout).2 id = (q.count + 1) % U32 := by
  have hid := (ipc_queue_find_mem _ _ _ hfind).2
  by_cases hfull : q.count ≥ q.max_messages
  · exfalso
    by_cases ht : timeout = 0
    · simp [ipc_send, hfind, hfull, ht] at h
    · simp [ipc_send, hfind, hfull, ht] at h
  · cases hslot : free_slot q.messages with
    | none =>
      exfalso
      simp [ipc_send, hfind, hfull, hslot] at h
    | some i =>
      refine ⟨Nat.lt_of_not_le hfull, ?_⟩
      have key : ∀ q1 : IPCQueue, q1.id = id →
          ipc_queue_find (store_queue s.ipc_queues id q1) id = some q1 :=
        fun q1 h1 => ipc_queue_find_store _ _ q q1 hfind h1
      simp only [ipc_send, hfind, hfull, if_false, hslot, queue_count]
      rw [key]
      exact hid

/-- A successful `ipc_receive` without waiting found the queue not empty and
takes one from its count. -/
theorem ipc_receive_count (env : IpcEnv) (s : IpcState) (id buffer buffer_size : Nat)
    (q : IPCQueue) (hfind : ipc_queue_find s.ipc_queues id = some q)
    (h : (ipc_receive env s id buffer buffer_size 0).1 = ERR_SUCCESS) :
    q.count ≠ 0
    ∧ queue_count (ipc_receive env s id buffer buffer_size 0).2.2 id
        = (q.count + U32 - 1) % U32 := by
  have hid := (ipc_queue_find_mem _ _ _ hfind).2
  by_cases hempty : q.count = 0
  · exfalso
    simp [ipc_receive, hfind, hempty] at h
  · refine ⟨hempty, ?_⟩
    have key : ∀ q1 : IPCQueue, q1.id = id →
        ipc_queue_find (store_queue s.ipc_queues id q1) id = some q1 :=
      fun q1 h1 => ipc_queue_find_store _ _ q q1 hfind h1
    simp only [ipc_receive, hfind, hempty, if_false, take_message, queue_count]
    rw [key]
    exact hid

/-! ## Claims on syscall.c -/

/-- C27: for every table, parameter block and system-call number:
`syscall_handler` stores `ERR_NOT_IMPLEMENTED` (as a `u32`) in `result` and
calls no handler when the number is `SYS_MAX` or more or the entry is empty,
and otherwise calls the entry once and stores exactly the value it returns;
`syscall_register` returns `ERR_INVALID_ARG` and leaves the table as it was
when the number is `SYS_MAX` or more, and otherwise returns `ERR_SUCCESS`,
sets the entry of that number to the handler and leaves every other entry. -/
theorem syscall_table_contract (table : SyscallTable) (p : SyscallParams) (n : Nat)
    (h : Option SyscallHandler) :
    (p.syscall_num ≥ SYS_MAX ∨ table p.syscall_num = none →
      syscall_handler table (some p)
        = (some { p with result := to_u32 ERR_NOT_IMPLEMENTED }, none))
    ∧ (∀ f, p.syscall_num < SYS_MAX → table p.syscall_num = some f →
      syscall_handler table (some p)
        = (some { p with result := f p }, some (p.syscall_num, p)))
    ∧ (n ≥ SYS_MAX → syscall_register table n h = (ERR_INVALID_ARG, table))
    ∧ (n < SYS_MAX →
      (syscall_register table n h).1 = ERR_SUCCESS
      ∧ (syscall_register table n h).2 n = h
      ∧ ∀ i, i ≠ n → (syscall_register table n h).2 i = table i) := by
  refine ⟨?_, ?_, ?_, ?_⟩
  · intro hcase
    by_cases hge : p.syscall_num ≥ SYS_MAX
    · simp [syscall_handler, hge]
    · rcases hcase with hc | hc
      · exact absurd hc hge
      · simp [syscall_handler, hge, hc]
  · intro f hlt hentry
    have hge : ¬ p.syscall_num ≥ SYS_MAX := by omega
    simp [syscall_handler, hge, hentry]
  · intro hge
    simp [syscall_register, hge]
  · intro hlt
    have hge : ¬ n ≥ SYS_MAX := by omega
    refine ⟨?_, ?_, ?_⟩
    · simp [syscall_register, hge]
    · simp [syscall_register, hge]
    · intro i hi
      simp [syscall_register, hge, hi]

/-- Witness of C27: a registered handler is called, an empty entry and a
number past `SYS_MAX` are answered with `ERR_NOT_IMPLEMENTED`, and a
registration past `SYS_MAX` is refused. -/
theorem syscall_table_contract_witness :
    (syscall_handler demo_syscall_table (some (demo_params 5))).1
      = some { demo_params 5 with result := 42 }
    ∧ (syscall_handler demo_syscall_table (some (demo_params 6))).1
      = some { demo_params 6 with result := 4294967287 }
    ∧ (syscall_handler demo_syscall_table (some (demo_params 30))).2 = none
    ∧ (syscall_register demo_syscall_table 26 none).1 = ERR_INVALID_ARG
    ∧ (syscall_register demo_syscall_table 7 none).1 = ERR_SUCCESS :=
  ⟨congrArg Prod.fst ((syscall_table_contract demo_syscall_table (demo_params 5) 26 none).2.1
      (fun p => p.arg1 + 1) (by decide) rfl),
   congrArg Prod.fst ((syscall_table_contract demo_syscall_table (demo_params 6) 26 none).1
      (Or.inr rfl)),
   congrArg Prod.snd ((syscall_table_contract demo_syscall_table (demo_params 30) 26 none).1
      (Or.inl (by decide))),
   congrArg Prod.fst ((syscall_table_contract demo_syscall_table (demo_params 5) 26 none).2.2.1
      (by decide)),
   ((syscall_table_contract demo_syscall_table (demo_params 5) 7 none).2.2.2 (by decide)).1⟩

/-! ## Claims on ipc.c -/

/-- C28 (failing input): on a queue of three slots, after the calls send
(size 1), send (size 2), receive, send (size 3), receive, all successful, the
third successful receive returns size 0, not the size 3 of the third message
sent: `ipc_send` stored that message in slot 0, the first free slot, while
`ipc_receive` reads slot `head = 2`; the message stays in slot 0 of a queue
whose count is 0. -/
theorem ipc_receive_third_message :
    (ipc_send (ipc_env 0 0) fifo_0 1 20480 1 0).1 = ERR_SUCCESS
    ∧ (ipc_send (ipc_env 0 0) fifo_1 1 20480 2 0).1 = ERR_SUCCESS
    ∧ (ipc_receive (ipc_env 0 0) fifo_2 1 24576 16 0).1 = ERR_SUCCESS
    ∧ (ipc_receive (ipc_env 0 0) fifo_2 1 24576 16 0).2.1 = some 1
    ∧ (ipc_send (ipc_env 0 0) fifo_3 1 20480 3 0).1 = ERR_SUCCESS
    ∧ slot_sizes fifo_4 1 = [3, 2, 0]
    ∧ (ipc_receive (ipc_env 0 0) fifo_4 1 24576 16 0).1 = ERR_SUCCESS
    ∧ (ipc_receive (ipc_env 0 0) fifo_4 1 24576 16 0).2.1 = some 2
    ∧ queue_count fifo_5 1 = 1
    ∧ (ipc_receive (ipc_env 0 0) fifo_5 1 24576 16 0).1 = ERR_SUCCESS
    ∧ (ipc_receive (ipc_env 0 0) fifo_5 1 24576 16 0).2.1 = some 0
    ∧ slot_sizes (ipc_receive (ipc_env 0 0) fifo_5 1 24576 16 0).2.2 1 = [3, 0, 0]
    ∧ queue_count (ipc_receive (ipc_env 0 0) fifo_5 1 24576 16 0).2.2 1 = 0 := by
  decide

theorem ids_4_reachable : IpcReachable ids_4 :=
  IpcReachable.create _ _ _ _ (IpcReachable.delete _ _
    (IpcReachable.create _ _ _ _ (IpcReachable.create _ _ _ _ (IpcReachable.init _))))

/-- C29 (failing input): after create, create, delete of id 1 and create, the
table holds two live queues with the same id 2; `ipc_queue_find 2` returns
the newer one, and `ipc_queue_delete 2` removes that one and leaves the queue
that was created with id 2 first. -/
theorem ipc_queue_ids_repeat :
    IpcReachable ids_4
    ∧ live_ids ids_2 = [1, 2]
    ∧ live_ptrs ids_2 = [36864, 37120]
    ∧ (ipc_queue_delete ids_2 1).1 = ERR_SUCCESS
    ∧ live_ids ids_4 = [2, 2]
    ∧ live_ptrs ids_4 = [37376, 37120]
    ∧ ids_4.ipc_queue_count = 2
    ∧ (ipc_queue_find ids_4.ipc_queues 2).map (fun q => q.self) = some 37376
    ∧ (ipc_queue_delete ids_4 2).1 = ERR_SUCCESS
    ∧ live_ptrs (ipc_queue_delete ids_4 2).2 = [37120] :=
  ⟨ids_4_reachable, by decide⟩

end OpenSovix
